import Mathlib

set_option maxHeartbeats 1000000

/-!
Shallow embedding of the nmstate IP-stack and DNS-placement core
(`src/rust/src/lib/ip.rs`, `src/rust/src/lib/nm/dns.rs`).

Error messages and log output are elided: an `NmstateError` is modelled by
its `ErrorKind` alone, which is all the verified claims depend on.
-/

deriving instance DecidableEq for Except

/-- Error kinds used by the embedded code (`ErrorKind` in the source). -/
inductive ErrorKind where
  | InvalidArgument
  | NotImplementedError
  | Bug
  deriving Repr, DecidableEq

/-- `NmstateError`, reduced to its kind (messages elided). -/
structure NmstateError where
  kind : ErrorKind
  deriving Repr, DecidableEq

/-- `std::net::IpAddr`: a v4 address is its 32-bit value, a v6 address its
128-bit value, as natural numbers. -/
inductive IpAddr where
  | v4 (a : Nat)
  | v6 (a : Nat)
  deriving Repr, DecidableEq

def IpAddr.is_ipv4 : IpAddr → Bool
  | .v4 _ => true
  | .v6 _ => false

def IpAddr.is_ipv6 : IpAddr → Bool
  | .v4 _ => false
  | .v6 _ => true

/-- Segment `i` (0-based, big-endian 16-bit groups) of a 128-bit IPv6 value,
mirroring `Ipv6Addr::segments()`. -/
def ipv6Segment (a : Nat) (i : Nat) : Nat :=
  (a >>> (112 - 16 * i)) % 65536

/-- `is_ipv6_unicast_link_local` from `ip.rs`:
`(ip.segments()[0] & 0xffc0) == 0xfe80`. -/
def is_ipv6_unicast_link_local (a : Nat) : Bool :=
  (ipv6Segment a 0) &&& 0xffc0 == 0xfe80

/-- `Dhcpv4ClientId` from `ip.rs`. -/
inductive Dhcpv4ClientId where
  | LinkLayerAddress
  | IaidPlusDuid
  | Other (s : String)
  deriving Repr, DecidableEq

/-- `Dhcpv6Duid` from `ip.rs`. -/
inductive Dhcpv6Duid where
  | LinkLayerAddressPlusTime
  | EnterpriseNumber
  | LinkLayerAddress
  | Uuid
  | Other (s : String)
  deriving Repr, DecidableEq

/-- `Ipv6AddrGenMode` from `ip.rs`. -/
inductive Ipv6AddrGenMode where
  | Eui64
  | StablePrivacy
  | Other (s : String)
  deriving Repr, DecidableEq

/-- `MptcpAddressFlag` is never inspected by the embedded code (the flags are
only ever cleared), so it is modelled as an abstract token. -/
inductive MptcpAddressFlag where
  | flag (n : Nat)
  deriving Repr, DecidableEq

/-- `InterfaceIpAddr` from `ip.rs` (`prefix_length` is kept as a `Nat`;
the source type is `u8`, so values range over 0..=255). -/
structure InterfaceIpAddr where
  ip : IpAddr
  prefixLength : Nat
  mptcp_flags : Option (List MptcpAddressFlag)
  valid_life_time : Option String
  preferred_life_time : Option String
  deriving Repr, DecidableEq

/-- `InterfaceIpAddr::is_auto`: a finite (non-`"forever"`) valid lifetime. -/
def InterfaceIpAddr.is_auto (a : InterfaceIpAddr) : Bool :=
  a.valid_life_time.isSome && a.valid_life_time != some "forever"

/-- `DnsClientState` (declared in `crate::dns`, used by `nm/dns.rs`): the
four fields visible at its construction sites in `nm/dns.rs`. -/
structure DnsClientState where
  server : Option (List String)
  search : Option (List String)
  options : Option (List String)
  priority : Option Int
  deriving Repr, DecidableEq

/-- Modelled from the spec: `DnsClientState::is_purge` is not under `src/`;
the spec describes the purge state as the empty `DnsClientState`
(empty server/search/option vectors, priority `None`), and the unit tests in
`src/rust/src/lib/unit_tests/dns.rs` additionally treat the all-`None`
config as purge while a partially-empty one is not. -/
def DnsClientState.is_purge (d : DnsClientState) : Bool :=
  (d.server == none && d.search == none && d.options == none)
    || (d.server == some [] && d.search == some [] && d.options == some [])

/-- `InterfaceIpv4` from `ip.rs`. The query-only `rules` slot is never read
or written by any embedded operation and is omitted. -/
structure InterfaceIpv4 where
  enabled : Bool
  prop_list : List String
  dhcp : Option Bool
  dhcp_client_id : Option Dhcpv4ClientId
  addresses : Option (List InterfaceIpAddr)
  auto_dns : Option Bool
  auto_gateway : Option Bool
  auto_routes : Option Bool
  auto_table_id : Option Nat
  allow_extra_address : Bool
  auto_route_metric : Option Nat
  dhcp_send_hostname : Option Bool
  dhcp_custom_hostname : Option String
  dns : Option DnsClientState
  deriving Repr, DecidableEq

/-- `InterfaceIpv4::default()`. -/
def InterfaceIpv4.default : InterfaceIpv4 where
  enabled := false
  prop_list := []
  dhcp := none
  dhcp_client_id := none
  addresses := none
  auto_dns := none
  auto_gateway := none
  auto_routes := none
  auto_table_id := none
  allow_extra_address := true
  auto_route_metric := none
  dhcp_send_hostname := none
  dhcp_custom_hostname := none
  dns := none

/-- `InterfaceIpv4::is_auto`. -/
def InterfaceIpv4.is_auto (s : InterfaceIpv4) : Bool :=
  s.enabled && s.dhcp == some true

/-- `InterfaceIpv4::is_static`. -/
def InterfaceIpv4.is_static (s : InterfaceIpv4) : Bool :=
  s.enabled && !s.is_auto && !(s.addresses.getD []).isEmpty

/-- `InterfaceIpv6` from `ip.rs` (`rules` omitted as for IPv4). -/
structure InterfaceIpv6 where
  enabled : Bool
  prop_list : List String
  dhcp : Option Bool
  dhcp_duid : Option Dhcpv6Duid
  autoconf : Option Bool
  addr_gen_mode : Option Ipv6AddrGenMode
  addresses : Option (List InterfaceIpAddr)
  auto_dns : Option Bool
  auto_gateway : Option Bool
  auto_routes : Option Bool
  auto_table_id : Option Nat
  allow_extra_address : Bool
  auto_route_metric : Option Nat
  token : Option String
  dhcp_send_hostname : Option Bool
  dhcp_custom_hostname : Option String
  dns : Option DnsClientState
  deriving Repr, DecidableEq

/-- `InterfaceIpv6::default()`. -/
def InterfaceIpv6.default : InterfaceIpv6 where
  enabled := false
  prop_list := []
  dhcp := none
  dhcp_duid := none
  autoconf := none
  addr_gen_mode := none
  addresses := none
  auto_dns := none
  auto_gateway := none
  auto_routes := none
  auto_table_id := none
  allow_extra_address := true
  auto_route_metric := none
  token := none
  dhcp_send_hostname := none
  dhcp_custom_hostname := none
  dns := none

/-- `InterfaceIpv6::is_auto`. -/
def InterfaceIpv6.is_auto (s : InterfaceIpv6) : Bool :=
  s.enabled && (s.dhcp == some true || s.autoconf == some true)

/-- `InterfaceIpv6::is_static`. -/
def InterfaceIpv6.is_static (s : InterfaceIpv6) : Bool :=
  s.enabled && !s.is_auto && !(s.addresses.getD []).isEmpty

/-- `is_ipv6_addr` from `ip.rs`: textual classification by presence of a
colon (`addr.contains(':')`), no parsing; stated on the character list of
the string so that it evaluates by kernel reduction. -/
def is_ipv6_addr (addr : String) : Bool :=
  addr.data.contains ':'

/-- `is_ip_addrs_none_or_all_auto` from `ip.rs`. -/
def is_ip_addrs_none_or_all_auto (addrs : Option (List InterfaceIpAddr)) : Bool :=
  match addrs with
  | none => true
  | some l =>
    l.all fun a =>
      match a.ip with
      | .v6 x => is_ipv6_unicast_link_local x || a.is_auto
      | .v4 _ => a.is_auto

/-!
### Model of `std::net::Ipv6Addr` textual parsing and formatting

`InterfaceIpv6::sanitize` canonicalizes the IPv6 token through
`Ipv6Addr::from_str` and `Ipv6Addr::to_string`; the following definitions
embed the Rust standard-library parser (`core::net::parser`) and formatter
faithfully, over `List Char`.
-/

/-- `char::to_digit(radix)` for the radices used here (10 and 16), on the
code point: digits map to 0-9, and the hex letters (code points 97-102
lowercase, 65-70 uppercase) to 10-15. -/
def charToDigit (radix : Nat) (c : Char) : Option Nat :=
  let n := c.toNat
  let d :=
    if 48 ≤ n && n ≤ 57 then some (n - 48)
    else if 97 ≤ n && n ≤ 102 then some (n - 87)
    else if 65 ≤ n && n ≤ 70 then some (n - 55)
    else none
  match d with
  | some v => if v < radix then some v else none
  | none => none

/-- Longest leading run of base-`radix` digits of the input
(digit values in order, and the rest of the input). -/
def takeDigits (radix : Nat) : List Char → List Nat × List Char
  | [] => ([], [])
  | c :: cs =>
    match charToDigit radix c with
    | some d =>
      let (ds, rest) := takeDigits radix cs
      (d :: ds, rest)
    | none => ([], c :: cs)

/-- `Parser::read_number(radix, Some(max_digits), allow_zero_prefix)` with the
overflow bound of the target integer type made explicit (`maxVal`): reads all
leading digits, then fails on zero digits, on more than `maxDigits` digits,
on a forbidden leading zero, or when the value exceeds `maxVal`. -/
def readNumber (radix maxDigits maxVal : Nat) (allowZeroPre : Bool)
    (cs : List Char) : Option (Nat × List Char) :=
  let (ds, rest) := takeDigits radix cs
  if ds.isEmpty then none
  else if maxDigits < ds.length then none
  else if !allowZeroPre && ds.head? == some 0 && 1 < ds.length then none
  else
    let v := ds.foldl (fun acc d => acc * radix + d) 0
    if maxVal < v then none else some (v, rest)

/-- `Parser::read_ipv4_addr`: four decimal octets (each 0..=255, no leading
zeros) separated by dots; the value is the 32-bit big-endian compound. -/
def readIpv4 (cs : List Char) : Option (Nat × List Char) :=
  match readNumber 10 3 255 false cs with
  | none => none
  | some (o1, r1) =>
    match r1 with
    | '.' :: r1b =>
      match readNumber 10 3 255 false r1b with
      | none => none
      | some (o2, r2) =>
        match r2 with
        | '.' :: r2b =>
          match readNumber 10 3 255 false r2b with
          | none => none
          | some (o3, r3) =>
            match r3 with
            | '.' :: r3b =>
              match readNumber 10 3 255 false r3b with
              | none => none
              | some (o4, r4) =>
                some (((o1 * 256 + o2) * 256 + o3) * 256 + o4, r4)
            | _ => none
        | _ => none
    | _ => none

/-- `read_groups` from `Parser::read_ipv6_addr`: reads up to `avail` 16-bit
groups (separated by `:` except before the first), allowing a trailing
embedded IPv4 address when at least two slots remain.  Returns the groups
read, whether the run ended in an embedded IPv4 address, and the rest. -/
def readGroups : Nat → Bool → List Char → List Nat × Bool × List Char
  | 0, _, cs => ([], false, cs)
  | avail + 1, needSep, cs =>
    let afterSep : Option (List Char) :=
      if needSep then
        match cs with
        | ':' :: r => some r
        | _ => none
      else some cs
    match afterSep with
    | none => ([], false, cs)
    | some cs1 =>
      let viaNumber : List Nat × Bool × List Char :=
        match readNumber 16 4 65535 true cs1 with
        | some (g, rest) =>
          let (gs, endsV4, rest2) := readGroups avail true rest
          (g :: gs, endsV4, rest2)
        | none => ([], false, cs)
      if 1 ≤ avail then
        match readIpv4 cs1 with
        | some (v, rest) => ([v >>> 16, v % 65536], true, rest)
        | none => viaNumber
      else viaNumber

/-- `Parser::read_ipv6_addr`: head groups, then `::`, then tail groups with
the zero run in between.  Returns the 8 segments and the unconsumed rest. -/
def readIpv6Addr (cs : List Char) : Option (List Nat × List Char) :=
  let (head, headV4, rest) := readGroups 8 false cs
  if head.length == 8 then some (head, rest)
  else if headV4 then none
  else
    match rest with
    | ':' :: ':' :: rest2 =>
      let limit := 8 - (head.length + 1)
      let (tail, _, rest3) := readGroups limit false rest2
      some (head ++ List.replicate (8 - head.length - tail.length) 0 ++ tail, rest3)
    | _ => none

/-- `Ipv6Addr::from_str`: the whole string must be consumed. -/
def ipv6FromStr (s : String) : Option (List Nat) :=
  match readIpv6Addr s.data with
  | some (segs, []) => some segs
  | _ => none

/-- Lowercase hexadecimal rendering of a 16-bit group (`{:x}`). -/
def natToHex (n : Nat) : String :=
  (Nat.toDigits 16 n).asString

/-- `fmt_subslice`: hex groups joined by `:`. -/
def fmtSubslice (segs : List Nat) : String :=
  String.intercalate ":" (segs.map natToHex)

/-- The first longest run of zero segments (start, length), as computed by
the fold in `Ipv6Addr`'s `Display` implementation (strictly longer runs
replace the current champion, so the first longest run wins). -/
def longestZeroRun (segs : List Nat) : Nat × Nat :=
  go segs 0 (0, 0) (0, 0)
where
  go : List Nat → Nat → Nat × Nat → Nat × Nat → Nat × Nat
    | [], _, _, longest => longest
    | s :: rest, i, current, longest =>
      if s == 0 then
        let cur := if current.2 == 0 then (i, 1) else (current.1, current.2 + 1)
        let lng := if longest.2 < cur.2 then cur else longest
        go rest (i + 1) cur lng
      else go rest (i + 1) (0, 0) longest

/-- Dotted-decimal rendering of the low 32 bits held in two segments. -/
def ipv4PartStr (g h : Nat) : String :=
  String.intercalate "."
    ([g / 256, g % 256, h / 256, h % 256].map (fun n => (Nat.toDigits 10 n).asString))

/-- `Ipv6Addr`'s `Display`: special cases for the unspecified address, the
loopback address and IPv4-mapped addresses, otherwise compression of the
first longest zero run of length at least two.  (Older standard libraries
also special-cased IPv4-compatible addresses; the embedded code only ever
formats values whose first segment is `0x2001`, where the two models
agree.) -/
def ipv6ToString (segs : List Nat) : String :=
  match segs with
  | [0, 0, 0, 0, 0, 0, 0, 0] => "::"
  | [0, 0, 0, 0, 0, 0, 0, 1] => "::1"
  | [0, 0, 0, 0, 0, 0xffff, g, h] => "::ffff:" ++ ipv4PartStr g h
  | _ =>
    let (start, len) := longestZeroRun segs
    if 1 < len then
      fmtSubslice (segs.take start) ++ "::" ++ fmtSubslice (segs.drop (start + len))
    else fmtSubslice segs

/-- `sanitize_ipv6_token_to_string` from `ip.rs`: empty token becomes `::`;
otherwise the token must parse as an IPv6 address whose leading 64 bits are
zero, and is re-rendered with the `2001:db8::/32` prefix trick. -/
def sanitize_ipv6_token_to_string (token : String) :
    Except NmstateError String :=
  if token.isEmpty then .ok "::"
  else
    match ipv6FromStr token with
    | some segs =>
      if (segs.take 4).any (fun s => s != 0) then
        .error ⟨.InvalidArgument⟩
      else
        let segs2 := [0x2001, 0xdb8] ++ segs.drop 2
        .ok ((ipv6ToString segs2).drop "2001:db8".length)
    | none => .error ⟨.InvalidArgument⟩

/-!
### IP stack sanitizers and mergers (`ip.rs`)
-/

/-- Clearing of the two lifetime fields, as done on each retained address by
both sanitizers and by `merge_ip`. -/
def clearLifetimes (a : InterfaceIpAddr) : InterfaceIpAddr :=
  { a with valid_life_time := none, preferred_life_time := none }

/-- Clearing of the query-only `mptcp_flags` field. -/
def clearMptcp (a : InterfaceIpAddr) : InterfaceIpAddr :=
  { a with mptcp_flags := none }

/-- The address-list cleanup shared by both sanitizers: drop auto addresses,
then clear the lifetime fields on the rest (`addrs.retain(|a| !a.is_auto())`
followed by the lifetime-clearing loop). -/
def processAddrs (l : List InterfaceIpAddr) : List InterfaceIpAddr :=
  (l.filter fun a => !a.is_auto).map clearLifetimes

/-- `None`-defaulting to `Some(true)` used by the dynamic-defaults rule. -/
def defTrue (o : Option Bool) : Option Bool :=
  if o.isNone then some true else o

/-- Steps of `InterfaceIpv4::sanitize` after the address cleanup: the
disabled-clears rule, the non-auto clears, the hostname consistency rule and
the `mptcp_flags` strip, in source order. -/
def san4Tail (s : InterfaceIpv4) : InterfaceIpv4 :=
  let s1 := if !s.enabled then { s with dhcp := none, addresses := none } else s
  let s2 :=
    if s1.dhcp != some true then
      { s1 with
        auto_dns := none
        auto_gateway := none
        auto_routes := none
        auto_table_id := none
        auto_route_metric := none
        dhcp_client_id := none
        dhcp_send_hostname := none
        dhcp_custom_hostname := none }
    else s1
  let s3 :=
    if s2.dhcp_send_hostname == some false then
      { s2 with dhcp_custom_hostname := none }
    else s2
  { s3 with addresses := s3.addresses.map (List.map clearMptcp) }

/-- `InterfaceIpv4::sanitize` (logging elided; errors reduced to kinds). -/
def InterfaceIpv4.sanitize (s0 : InterfaceIpv4) (is_desired : Bool) :
    Except NmstateError InterfaceIpv4 :=
  let s1 :=
    if s0.is_auto then
      { s0 with
        auto_dns := defTrue s0.auto_dns
        auto_routes := defTrue s0.auto_routes
        auto_gateway := defTrue s0.auto_gateway }
    else if s0.addresses == some [] && s0.enabled then
      { s0 with enabled := false }
    else s0
  match s1.addresses with
  | some addrs =>
    if is_desired && addrs.any (fun a => a.ip.is_ipv6) then
      .error ⟨.InvalidArgument⟩
    else if is_desired && addrs.any (fun a => 32 < a.prefixLength) then
      .error ⟨.InvalidArgument⟩
    else
      .ok (san4Tail { s1 with addresses := some (processAddrs addrs) })
  | none => .ok (san4Tail s1)

/-- The IPv6 link-local filter from `InterfaceIpv6::sanitize`: keep only
IPv6 addresses that are not unicast link-local (IPv4 addresses in the IPv6
section are silently dropped here as well). -/
def keepV6NonLinkLocal (a : InterfaceIpAddr) : Bool :=
  match a.ip with
  | .v6 x => !is_ipv6_unicast_link_local x
  | .v4 _ => false

/-- Steps of `InterfaceIpv6::sanitize` after the address checks: dynamic
defaults, link-local filter, disabled clears, non-auto clears and the
`mptcp_flags` strip, in source order. -/
def san6Mid (s : InterfaceIpv6) : InterfaceIpv6 :=
  let s2 :=
    if s.is_auto then
      { s with
        auto_dns := defTrue s.auto_dns
        auto_routes := defTrue s.auto_routes
        auto_gateway := defTrue s.auto_gateway }
    else s
  let s3 := { s2 with addresses := s2.addresses.map (List.filter keepV6NonLinkLocal) }
  let s4 :=
    if !s3.enabled then
      { s3 with dhcp := none, autoconf := none, addresses := none }
    else s3
  let s5 :=
    if !s4.is_auto then
      { s4 with
        auto_dns := none
        auto_gateway := none
        auto_routes := none
        auto_table_id := none
        auto_route_metric := none
        dhcp_send_hostname := none
        dhcp_custom_hostname := none }
    else s4
  { s5 with addresses := s5.addresses.map (List.map clearMptcp) }

/-- The token rule and the hostname-consistency rule, which close
`InterfaceIpv6::sanitize`, in source order. -/
def san6Token (s : InterfaceIpv6) (is_desired : Bool) :
    Except NmstateError InterfaceIpv6 :=
  match s.token with
  | some t =>
    if is_desired && s.autoconf == some false && !(t == "" || t == "::") then
      .error ⟨.InvalidArgument⟩
    else
      match sanitize_ipv6_token_to_string t with
      | .ok t2 => .ok { s with token := some t2 }
      | .error e => .error e
  | none => .ok s

/-- The steps of `InterfaceIpv6::sanitize` after the address checks:
dynamic defaults through token rule (`san6Mid`, `san6Token`), then the
closing hostname-consistency rule. -/
def san6Rest (s1 : InterfaceIpv6) (is_desired : Bool) :
    Except NmstateError InterfaceIpv6 :=
  match san6Token (san6Mid s1) is_desired with
  | .error e => .error e
  | .ok s7 =>
    if s7.dhcp_send_hostname == some false then
      .ok { s7 with dhcp_custom_hostname := none }
    else .ok s7

/-- `InterfaceIpv6::sanitize` (logging elided; errors reduced to kinds). -/
def InterfaceIpv6.sanitize (s0 : InterfaceIpv6) (is_desired : Bool) :
    Except NmstateError InterfaceIpv6 :=
  match s0.addresses with
  | some addrs =>
    if is_desired && addrs.any (fun a => a.ip.is_ipv4) then
      .error ⟨.InvalidArgument⟩
    else if is_desired && addrs.any (fun a => 128 < a.prefixLength) then
      .error ⟨.InvalidArgument⟩
    else san6Rest { s0 with addresses := some (processAddrs addrs) } is_desired
  | none => san6Rest s0 is_desired

/-- `InterfaceIpv4::merge_ip`. -/
def InterfaceIpv4.merge_ip (s0 : InterfaceIpv4) (current : InterfaceIpv4) :
    InterfaceIpv4 :=
  let s1 :=
    if !(s0.prop_list.contains "enabled") then
      { s0 with enabled := current.enabled }
    else s0
  let s2 :=
    if s1.dhcp.isNone && s1.enabled then { s1 with dhcp := current.dhcp } else s1
  if current.is_auto && current.addresses.isSome && s2.enabled && !s2.is_auto
      && is_ip_addrs_none_or_all_auto s2.addresses then
    { s2 with addresses := current.addresses.map (List.map clearLifetimes) }
  else s2

/-- `InterfaceIpv6::merge_ip`. -/
def InterfaceIpv6.merge_ip (s0 : InterfaceIpv6) (current : InterfaceIpv6) :
    InterfaceIpv6 :=
  let s1 :=
    if !(s0.prop_list.contains "enabled") then
      { s0 with enabled := current.enabled }
    else s0
  let s2 :=
    if s1.dhcp.isNone && s1.enabled then { s1 with dhcp := current.dhcp } else s1
  let s3 :=
    if s2.autoconf.isNone && s2.enabled then
      { s2 with autoconf := current.autoconf }
    else s2
  if current.is_auto && current.addresses.isSome && s3.enabled && !s3.is_auto
      && is_ip_addrs_none_or_all_auto s3.addresses then
    { s3 with addresses := current.addresses.map (List.map clearLifetimes) }
  else s3

/-!
### DNS placement (`nm/dns.rs`)
-/

/-- Substring search over character lists (`str::contains`). -/
def hasSub (sub l : List Char) : Bool :=
  (List.tails l).any fun t => sub.isPrefixOf t

/-- `is_mixed_dns_servers` from `nm/dns.rs`: compress runs of equal family
into one character, then search the two forbidden infixes. -/
def is_mixed_dns_servers (srvs : List String) : Bool :=
  let pattern := srvs.foldl (fun pat srv =>
    let cur : Char := if is_ipv6_addr srv then '6' else '4'
    if pat.getLast? == some cur then pat else pat ++ [cur]) ([] : List Char)
  hasSub ['4', '6', '4'] pattern || hasSub ['6', '4', '6'] pattern

/-- The rejection condition of `store_dns_config_to_iface`: the mixed-family
check only runs on server lists longer than two. -/
def dns_placement_rejects (srvs : List String) : Bool :=
  2 < srvs.length && is_mixed_dns_servers srvs

/-- `str::split(sep)` over character lists: the separator-delimited pieces,
with empty pieces preserved (`"a%%b"` gives three pieces). -/
def splitOnChar (sep : Char) : List Char → List (List Char)
  | [] => [[]]
  | c :: cs =>
    if c == sep then [] :: splitOnChar sep cs
    else
      match splitOnChar sep cs with
      | [] => [[c]]
      | p :: ps => (c :: p) :: ps

/-- `extract_ipv6_link_local_iface_from_dns_srv` from `nm/dns.rs`: the first
server that splits at `%` into exactly two parts with a non-empty second
part yields that second part as the interface name. -/
def extract_ipv6_link_local_iface_from_dns_srv (srvs : List String) :
    Option String :=
  srvs.findSome? fun srv =>
    match splitOnChar '%' srv.data with
    | [_, zone] => if zone.isEmpty then none else some zone.asString
    | _ => none

/-- Modelled from the spec: `parse_dns_ipv6_link_local_srv` (in
`crate::dns`) is not under `src/`; per the spec, a server written as
`ip%iface` has its zone suffix stripped before the server is stored on the
holder, so a two-part `%`-split keeps only the address part. -/
def strip_dns_srv_zone (s : String) : String :=
  match splitOnChar '%' s.data with
  | [ip, _] => ip.asString
  | _ => s

/-- Modelled from the spec: the interface-kind enum is not under `src/`.
Only loopback and the user-space kinds (OVS bridge and OVS port) are
distinguished by the DNS placement code. -/
inductive InterfaceType where
  | ethernet
  | loopback
  | ovsBridge
  | ovsPort
  | other (s : String)
  deriving Repr, DecidableEq

/-- Modelled from the spec: user-space interfaces are the OVS bridges and
OVS ports, which live outside the kernel namespace. -/
def InterfaceType.is_userspace : InterfaceType → Bool
  | .ovsBridge => true
  | .ovsPort => true
  | _ => false

/-- Modelled from the spec: the per-view base-interface record, reduced to
the fields the DNS placement code reads (the two IP stacks and whether the
kind can hold IP). -/
structure BaseIfaceSlots where
  ipv4 : Option InterfaceIpv4
  ipv6 : Option InterfaceIpv6
  can_have_ip : Bool
  deriving Repr, DecidableEq

/-- Modelled from the spec: `MergedInterface`, reduced to the views and
flags read by the DNS placement code in `nm/dns.rs`. -/
structure MergedIface where
  name : String
  iface_type : InterfaceType
  is_changed : Bool
  merged : BaseIfaceSlots
  for_apply : Option BaseIfaceSlots
  deriving Repr, DecidableEq

/-- Modelled from the spec: `MergedInterfaces`, with the keyed kernel
interface map as an association list and the user's insertion order. -/
structure MergedInterfaces where
  kernel_ifaces : List (String × MergedIface)
  insert_order : List (String × InterfaceType)
  deriving Repr, DecidableEq

def MergedInterfaces.get (m : MergedInterfaces) (name : String) :
    Option MergedIface :=
  (m.kernel_ifaces.find? fun p => p.1 == name).map Prod.snd

/-- Modelled from the spec: `mark_as_changed` flips the changed flag of a
merged interface. -/
def MergedIface.mark_as_changed (i : MergedIface) : MergedIface :=
  { i with is_changed := true }

/-- `MergedInterface::is_iface_valid_for_dns` from `nm/dns.rs`: the merged
stack of the family is enabled and static or auto. -/
def MergedIface.is_iface_valid_for_dns (i : MergedIface) (is_ipv6 : Bool) :
    Bool :=
  if is_ipv6 then
    (i.merged.ipv6.map fun c => c.enabled && (c.is_static || c.is_auto))
      == some true
  else
    (i.merged.ipv4.map fun c => c.enabled && (c.is_static || c.is_auto))
      == some true

/-- `MergedInterface::is_iface_prefered_for_dns` from `nm/dns.rs`: judged on
the `for_apply` view; static with a non-empty address list (the IPv6 side
re-checks non-emptiness explicitly) or auto with `auto_dns: false`. -/
def MergedIface.is_iface_prefered_for_dns (i : MergedIface) (is_ipv6 : Bool) :
    Bool :=
  match i.for_apply with
  | some apply_iface =>
    if is_ipv6 then
      (apply_iface.ipv6.map fun c =>
        c.enabled
          && ((c.is_static && (c.addresses.map fun a => !a.isEmpty) == some true)
            || (c.is_auto && c.auto_dns == some false))) == some true
    else
      (apply_iface.ipv4.map fun c =>
        c.enabled
          && (c.is_static || (c.is_auto && c.auto_dns == some false)))
        == some true
  | none => false

/-- Lexicographic strict order on character lists, matching the byte-wise
`Ord` on Rust strings (UTF-8 byte order coincides with code-point order). -/
def charsLt : List Char → List Char → Bool
  | [], [] => false
  | [], _ :: _ => true
  | _ :: _, [] => false
  | a :: as_, b :: bs =>
    if a.toNat < b.toNat then true
    else if b.toNat < a.toNat then false
    else charsLt as_ bs

def strLe (a b : String) : Bool :=
  charsLt a.data b.data || a == b

/-- Insertion sort with a boolean comparison, standing in for
`sort_unstable` on interface names (the names are distinct, so any sorting
algorithm yields the same list). -/
def insertSorted (x : String) : List String → List String
  | [] => [x]
  | y :: ys => if strLe x y then x :: y :: ys else y :: insertSorted x ys

def sortNames (l : List String) : List String :=
  l.foldr insertSorted []

/-- `find_dns_iface` from `nm/dns.rs`.  The NetworkManager hints (`nm_acs`,
`nm_devs`) are abstracted into the two predicates `ext_managed` and
`unmanaged` (their evaluation lives outside `src/`; the spec says such
interfaces are ineligible as new holders). -/
def find_dns_iface (is_ipv6 : Bool) (m : MergedInterfaces)
    (cur_dns_ifaces : List String) (ext_managed unmanaged : String → Bool) :
    Option String :=
  -- Try using current DNS interface if in desired list
  let step1 := cur_dns_ifaces.find? fun n =>
    match m.get n with
    | some iface => iface.is_changed && iface.is_iface_valid_for_dns is_ipv6
    | none => false
  match step1 with
  | some n => some n
  | none =>
    -- changed, kernel-visible, non-loopback, preferred; insertion order
    let candidates := m.insert_order.filterMap fun p =>
      if !p.2.is_userspace && p.2 != InterfaceType.loopback then some p.1
      else none
    let step2 := candidates.find? fun n =>
      match m.get n with
      | some iface =>
        iface.is_changed && iface.is_iface_prefered_for_dns is_ipv6
      | none => false
    match step2 with
    | some n => some n
    | none =>
      let step3 := candidates.find? fun n =>
        match m.get n with
        | some iface =>
          iface.is_changed && iface.is_iface_valid_for_dns is_ipv6
        | none => false
      match step3 with
      | some n => some n
      | none =>
        let cur_iface_names := sortNames
          (m.kernel_ifaces.filterMap fun p =>
            if !p.2.is_changed && p.2.iface_type != InterfaceType.loopback then
              some p.2.name
            else none)
        cur_iface_names.find? fun n =>
          match m.get n with
          | some iface =>
            iface.is_iface_valid_for_dns is_ipv6 && !ext_managed n
              && !unmanaged n
          | none => false

/-- `reselect_dns_ifaces` from `nm/dns.rs`: the IPv6 holder is the zone
interface extracted from the server list when one exists, otherwise the
result of the four-step search. -/
def reselect_dns_ifaces (m : MergedInterfaces) (dns_servers : List String)
    (cur_v4_ifaces cur_v6_ifaces : List String)
    (ext_managed unmanaged : String → Bool) : String × String :=
  let ipv4_iface :=
    (find_dns_iface false m cur_v4_ifaces ext_managed unmanaged).getD ""
  let ipv6_iface :=
    ((extract_ipv6_link_local_iface_from_dns_srv dns_servers).orElse fun _ =>
      find_dns_iface true m cur_v6_ifaces ext_managed unmanaged).getD ""
  (ipv4_iface, ipv6_iface)

/-- The global DNS configuration carried by the merged state
(`merged_state.dns.servers / searches / options`). -/
structure DnsConfigState where
  servers : List String
  searches : List String
  options : List String
  deriving Repr, DecidableEq

/-- Modelled from the spec: the slice of `MergedNetworkState` read and
written by `save_dns_to_iface`. -/
structure MergedNetworkState where
  interfaces : MergedInterfaces
  dns : DnsConfigState
  deriving Repr, DecidableEq

def MergedInterfaces.update (m : MergedInterfaces) (name : String)
    (f : MergedIface → MergedIface) : MergedInterfaces :=
  { m with
    kernel_ifaces := m.kernel_ifaces.map fun p =>
      if p.1 == name then (p.1, f p.2) else p }

/-- `DEFAULT_DNS_PRIORITY` from `nm/dns.rs`. -/
def DEFAULT_DNS_PRIORITY : Int := 40

/-- `set_iface_dns_conf` from `nm/dns.rs`, acting on the base-interface
slots of the target view. -/
def set_iface_dns_conf (is_ipv6 : Bool) (slots : BaseIfaceSlots)
    (servers searches options : List String) (priority : Option Int) :
    Except NmstateError BaseIfaceSlots :=
  let dns_conf : DnsClientState :=
    { server := some servers
      search := some searches
      options := some options
      priority := priority }
  if is_ipv6 then
    match slots.ipv6 with
    | some ip_conf => .ok { slots with ipv6 := some { ip_conf with dns := some dns_conf } }
    | none =>
      if !dns_conf.is_purge then .error ⟨.Bug⟩ else .ok slots
  else
    match slots.ipv4 with
    | some ip_conf => .ok { slots with ipv4 := some { ip_conf with dns := some dns_conf } }
    | none =>
      if !dns_conf.is_purge then .error ⟨.Bug⟩ else .ok slots

/-- The body of `_save_dns_to_iface` operating on one merged interface:
mark it changed, hoist the family stack from the merged view into
`for_apply` when absent there, and install the DNS configuration on the
`for_apply` view. -/
def saveDnsOnIface (is_ipv6 : Bool) (iface : MergedIface)
    (servers searches options : List String) (priority : Option Int) :
    Except NmstateError MergedIface :=
  let iface := if !iface.is_changed then iface.mark_as_changed else iface
  let iface :=
    match iface.for_apply with
    | some apply_slots =>
      if is_ipv6 then
        if apply_slots.ipv6.isNone then
          { iface with
            for_apply := some { apply_slots with ipv6 := iface.merged.ipv6 } }
        else iface
      else
        if apply_slots.ipv4.isNone then
          { iface with
            for_apply := some { apply_slots with ipv4 := iface.merged.ipv4 } }
        else iface
    | none => iface
  match iface.for_apply with
  | some apply_slots =>
    match set_iface_dns_conf is_ipv6 apply_slots servers searches options
        priority with
    | .ok slots2 => .ok { iface with for_apply := some slots2 }
    | .error e => .error e
  | none => .ok iface

/-- `_save_dns_to_iface` from `nm/dns.rs`: strip zone suffixes from the
servers, reject an empty holder name, and install the full search/option
lists with priority 40 on the preferred holder and empty lists with
priority 50 on the other. -/
def _save_dns_to_iface (is_ipv6 : Bool) (iface_name : String)
    (servers : List String) (st : MergedNetworkState) (preferred : Bool) :
    Except NmstateError MergedNetworkState :=
  let servers := servers.map strip_dns_srv_zone
  if iface_name.isEmpty then .error ⟨.InvalidArgument⟩
  else
    match st.interfaces.get iface_name with
    | some iface =>
      let res :=
        if preferred then
          saveDnsOnIface is_ipv6 iface servers st.dns.searches st.dns.options
            (some DEFAULT_DNS_PRIORITY)
        else
          saveDnsOnIface is_ipv6 iface servers [] []
            (some (DEFAULT_DNS_PRIORITY + 10))
      match res with
      | .ok iface2 =>
        .ok { st with
          interfaces := st.interfaces.update iface_name fun _ => iface2 }
      | .error e => .error e
    | none => .error ⟨.Bug⟩

/-- The family split loop of `save_dns_to_iface`: IPv6-classified servers
are pushed into the v6 vector, the rest into the v4 vector, in order. -/
def split_dns_servers (srvs : List String) : List String × List String :=
  srvs.foldl
    (fun acc srv =>
      if is_ipv6_addr srv then (acc.1, acc.2 ++ [srv])
      else (acc.1 ++ [srv], acc.2))
    ([], [])

/-- `save_dns_to_iface` from `nm/dns.rs`. -/
def save_dns_to_iface (v4_iface_name v6_iface_name : String)
    (st : MergedNetworkState) : Except NmstateError MergedNetworkState :=
  let (v4_servers, v6_servers) := split_dns_servers st.dns.servers
  let prefer_ipv6_srv :=
    (st.dns.servers.head?.map fun s => is_ipv6_addr s).getD false
  let afterV6 : Except NmstateError MergedNetworkState :=
    if !v6_servers.isEmpty then
      _save_dns_to_iface true v6_iface_name v6_servers st prefer_ipv6_srv
    else .ok st
  match afterV6 with
  | .error e => .error e
  | .ok st2 =>
    if !v4_servers.isEmpty then
      _save_dns_to_iface false v4_iface_name v4_servers st2 (!prefer_ipv6_srv)
    else .ok st2

/-!
### Deserialization prop-list collection (`ip.rs`)
-/

/-- `InterfaceIp`, the raw serde schema shared by the `ipv4` and `ipv6`
sections. -/
structure InterfaceIp where
  enabled : Option Bool
  dhcp : Option Bool
  autoconf : Option Bool
  dhcp_client_id : Option Dhcpv4ClientId
  dhcp_duid : Option Dhcpv6Duid
  addresses : Option (List InterfaceIpAddr)
  auto_dns : Option Bool
  auto_gateway : Option Bool
  auto_routes : Option Bool
  auto_table_id : Option Nat
  auto_route_metric : Option Nat
  addr_gen_mode : Option Ipv6AddrGenMode
  allow_extra_address : Bool
  token : Option String
  dhcp_send_hostname : Option Bool
  dhcp_custom_hostname : Option String
  deriving Repr, DecidableEq

/-- The wire-level keys accepted by the `InterfaceIp` schema (the serde
field renames of `ip.rs`). -/
def interfaceIpSchemaKeys : List String :=
  ["enabled", "dhcp", "autoconf", "dhcp-client-id", "dhcp-duid", "address",
   "auto-dns", "auto-gateway", "auto-routes", "auto-route-table-id",
   "auto-route-metric", "addr-gen-mode", "allow-extra-address", "token",
   "dhcp-send-hostname", "dhcp-custom-hostname"]

/-- `get_ip_prop_list` from `ip.rs`, over the set of keys present in the
user's mapping: thirteen fixed keys are tested for membership, in source
order. -/
def get_ip_prop_list (keys : List String) : List String :=
  (if keys.contains "enabled" then ["enabled"] else [])
    ++ (if keys.contains "dhcp" then ["dhcp"] else [])
    ++ (if keys.contains "autoconf" then ["autoconf"] else [])
    ++ (if keys.contains "dhcp-client-id" then ["dhcp_client_id"] else [])
    ++ (if keys.contains "dhcp-duid" then ["dhcp_duid"] else [])
    ++ (if keys.contains "address" then ["addresses"] else [])
    ++ (if keys.contains "auto-dns" then ["auto_dns"] else [])
    ++ (if keys.contains "auto-gateway" then ["auto_gateway"] else [])
    ++ (if keys.contains "auto-routes" then ["auto_routes"] else [])
    ++ (if keys.contains "auto-route-table-id" then ["auto_table_id"] else [])
    ++ (if keys.contains "addr-gen-mode" then ["addr_gen_mode"] else [])
    ++ (if keys.contains "dhcp-send-hostname" then ["dhcp_send_hostname"] else [])
    ++ (if keys.contains "dhcp-custom-hostname" then ["dhcp_custom_hostname"] else [])

/-- `From<InterfaceIp> for InterfaceIpv4`. -/
def InterfaceIpv4.fromIp (ip : InterfaceIp) : InterfaceIpv4 :=
  { InterfaceIpv4.default with
    enabled := ip.enabled.getD false
    dhcp := ip.dhcp
    addresses := ip.addresses
    dhcp_client_id := ip.dhcp_client_id
    auto_dns := ip.auto_dns
    auto_routes := ip.auto_routes
    auto_gateway := ip.auto_gateway
    auto_table_id := ip.auto_table_id
    allow_extra_address := ip.allow_extra_address
    auto_route_metric := ip.auto_route_metric
    dhcp_send_hostname := ip.dhcp_send_hostname
    dhcp_custom_hostname := ip.dhcp_custom_hostname }

/-- `From<InterfaceIp> for InterfaceIpv6`. -/
def InterfaceIpv6.fromIp (ip : InterfaceIp) : InterfaceIpv6 :=
  { InterfaceIpv6.default with
    enabled := ip.enabled.getD false
    dhcp := ip.dhcp
    autoconf := ip.autoconf
    addresses := ip.addresses
    dhcp_duid := ip.dhcp_duid
    auto_dns := ip.auto_dns
    auto_routes := ip.auto_routes
    auto_gateway := ip.auto_gateway
    auto_table_id := ip.auto_table_id
    addr_gen_mode := ip.addr_gen_mode
    allow_extra_address := ip.allow_extra_address
    auto_route_metric := ip.auto_route_metric
    token := ip.token
    dhcp_send_hostname := ip.dhcp_send_hostname
    dhcp_custom_hostname := ip.dhcp_custom_hostname }

/-- `Deserialize for InterfaceIpv4` from `ip.rs`, given the set of keys the
user wrote and the parsed raw value (the serde value-level parsing itself,
including rejection of unknown keys, happens in `serde_json` outside this
model). -/
def InterfaceIpv4.deserialize (keys : List String) (ip : InterfaceIp) :
    Except String InterfaceIpv4 :=
  let prop_list := get_ip_prop_list keys
  if prop_list.contains "autoconf" then
    .error "autoconf is not allowed for IPv4"
  else if prop_list.contains "dhcp_duid" then
    .error "dhcp-duid is not allowed for IPv4"
  else .ok { InterfaceIpv4.fromIp ip with prop_list := prop_list }

/-- `Deserialize for InterfaceIpv6` from `ip.rs`. -/
def InterfaceIpv6.deserialize (keys : List String) (ip : InterfaceIp) :
    Except String InterfaceIpv6 :=
  let prop_list := get_ip_prop_list keys
  if prop_list.contains "dhcp_client_id" then
    .error "dhcp-client-id is not allowed for IPv6"
  else .ok { InterfaceIpv6.fromIp ip with prop_list := prop_list }

/-!
### Spec-side definitions used to state the claims
-/

/-- The family character of a DNS server string, per the spec wording. -/
def famChar (s : String) : Char :=
  if is_ipv6_addr s then '6' else '4'

/-- Compression of runs of equal characters into a single character, per the
spec wording of the DNS ordering rule. -/
def dedupAdj : List Char → List Char
  | [] => []
  | [c] => [c]
  | a :: b :: r => if a == b then dedupAdj (b :: r) else a :: dedupAdj (b :: r)

/-- The compressed family pattern of a server list, per the spec wording. -/
def compressFamilies (srvs : List String) : List Char :=
  dedupAdj (srvs.map famChar)

/-- Run-compression relative to a previous character (the loop invariant
shape of the pattern fold in `is_mixed_dns_servers`). -/
def dedupFrom (prev : Option Char) : List Char → List Char
  | [] => []
  | c :: r => if some c == prev then dedupFrom prev r else c :: dedupFrom (some c) r

/-- The `%`-zone of a server string, per the spec wording of the IPv6
link-local rule (exactly one `%`, non-empty suffix). -/
def serverZone (s : String) : Option String :=
  match splitOnChar '%' s.data with
  | [_, zone] => if zone.isEmpty then none else some zone.asString
  | _ => none

/-- The wire-to-internal name table of the thirteen keys that
`get_ip_prop_list` records. -/
def trackedIpKeys : List (String × String) :=
  [("enabled", "enabled"), ("dhcp", "dhcp"), ("autoconf", "autoconf"),
   ("dhcp-client-id", "dhcp_client_id"), ("dhcp-duid", "dhcp_duid"),
   ("address", "addresses"), ("auto-dns", "auto_dns"),
   ("auto-gateway", "auto_gateway"), ("auto-routes", "auto_routes"),
   ("auto-route-table-id", "auto_table_id"),
   ("addr-gen-mode", "addr_gen_mode"),
   ("dhcp-send-hostname", "dhcp_send_hostname"),
   ("dhcp-custom-hostname", "dhcp_custom_hostname")]

/-- The DNS configuration stored on the `for_apply` view of the named
interface for the given family. -/
def ifaceDns (st : MergedNetworkState) (name : String) (is_ipv6 : Bool) :
    Option DnsClientState :=
  match st.interfaces.get name with
  | some i =>
    match i.for_apply with
    | some sl =>
      if is_ipv6 then sl.ipv6.bind fun c => c.dns
      else sl.ipv4.bind fun c => c.dns
    | none => none
  | none => none

/-!
### Concrete instances used by counterexamples and witnesses
-/

/-- A dynamic (finite-lifetime) IPv4 address `192.0.2.5/24`. -/
def autoV4Addr : InterfaceIpAddr :=
  { ip := .v4 0xC0000205, prefixLength := 24, mptcp_flags := none,
    valid_life_time := some "3600sec", preferred_life_time := some "3600sec" }

/-- A static IPv4 address `192.0.2.9/24`. -/
def staticV4Addr : InterfaceIpAddr :=
  { ip := .v4 0xC0000209, prefixLength := 24, mptcp_flags := none,
    valid_life_time := none, preferred_life_time := none }

/-- A static IPv6 address `2001:db8::9/64`. -/
def staticV6Addr : InterfaceIpAddr :=
  { ip := .v6 0x20010db8000000000000000000000009, prefixLength := 64,
    mptcp_flags := none, valid_life_time := none, preferred_life_time := none }

/-- C1 counterexample input: desired enables IPv4 and says nothing else. -/
def c1Desired : InterfaceIpv4 :=
  { InterfaceIpv4.default with enabled := true, prop_list := ["enabled"] }

/-- C1 counterexample input: current runs DHCPv4 with a dynamic address. -/
def c1Current : InterfaceIpv4 :=
  { InterfaceIpv4.default with
    enabled := true, dhcp := some true, addresses := some [autoV4Addr] }

/-- C2 counterexample input: enabled IPv6 stack with an empty address list. -/
def c2V6Empty : InterfaceIpv6 :=
  { InterfaceIpv6.default with enabled := true, addresses := some [] }

/-- C2 counterexample input: auto IPv4 stack with an empty address list. -/
def c2V4Auto : InterfaceIpv4 :=
  { InterfaceIpv4.default with
    enabled := true, dhcp := some true, addresses := some [] }

/-- C3 counterexample input: enabled non-auto IPv4 stack whose only address
is dynamic. -/
def c3V4AllAuto : InterfaceIpv4 :=
  { InterfaceIpv4.default with enabled := true, addresses := some [autoV4Addr] }

/-- The first sanitize result of `c3V4AllAuto`: still enabled, with an empty
address list. -/
def c3V4Mid : InterfaceIpv4 :=
  { InterfaceIpv4.default with enabled := true, addresses := some [] }

/-- C3 counterexample input: autoconf IPv6 stack with token `::5:0:0:0`,
whose canonical form `:0:0:5::` does not re-parse. -/
def c3V6Tok : InterfaceIpv6 :=
  { InterfaceIpv6.default with
    enabled := true, autoconf := some true, token := some "::5:0:0:0" }

/-- The first sanitize result of `c3V6Tok`. -/
def c3V6TokMid : InterfaceIpv6 :=
  { InterfaceIpv6.default with
    enabled := true, autoconf := some true, token := some ":0:0:5::",
    auto_dns := some true, auto_routes := some true, auto_gateway := some true }

/-- C7 counterexample input: non-auto IPv6 stack with a DHCPv6 DUID. -/
def c7V6Duid : InterfaceIpv6 :=
  { InterfaceIpv6.default with enabled := true, dhcp_duid := some .Uuid }

/-- C8 counterexample input: disabled IPv6 stack with `autoconf: false` and
a non-trivial token. -/
def c8Disabled : InterfaceIpv6 :=
  { InterfaceIpv6.default with
    enabled := false, autoconf := some false, token := some "::fac1" }

/-- C9 counterexample input: a raw `InterfaceIp` carrying only a token. -/
def c9TokenIp : InterfaceIp :=
  { enabled := none, dhcp := none, autoconf := none, dhcp_client_id := none,
    dhcp_duid := none, addresses := none, auto_dns := none,
    auto_gateway := none, auto_routes := none, auto_table_id := none,
    auto_route_metric := none, addr_gen_mode := none,
    allow_extra_address := true, token := some "::fac1",
    dhcp_send_hostname := none, dhcp_custom_hostname := none }

/-- A static-IPv4 interface `eth1` as a merged interface (changed, with a
`for_apply` view). -/
def eth1Iface : MergedIface :=
  { name := "eth1", iface_type := .ethernet, is_changed := true,
    merged :=
      { ipv4 := some { InterfaceIpv4.default with
          enabled := true, dhcp := some false,
          addresses := some [staticV4Addr] },
        ipv6 := none, can_have_ip := true },
    for_apply := some
      { ipv4 := some { InterfaceIpv4.default with
          enabled := true, dhcp := some false,
          addresses := some [staticV4Addr] },
        ipv6 := none, can_have_ip := true } }

/-- A static-IPv6 interface `eth2` as a merged interface. -/
def eth2Iface : MergedIface :=
  { name := "eth2", iface_type := .ethernet, is_changed := true,
    merged :=
      { ipv4 := none,
        ipv6 := some { InterfaceIpv6.default with
          enabled := true, dhcp := some false, autoconf := some false,
          addresses := some [staticV6Addr] },
        can_have_ip := true },
    for_apply := some
      { ipv4 := none,
        ipv6 := some { InterfaceIpv6.default with
          enabled := true, dhcp := some false, autoconf := some false,
          addresses := some [staticV6Addr] },
        can_have_ip := true } }

/-- The DNS-split scenario of the spec: both families of servers, two
changed static holders. -/
def dnsScenarioState : MergedNetworkState :=
  { interfaces :=
      { kernel_ifaces := [("eth1", eth1Iface), ("eth2", eth2Iface)],
        insert_order := [("eth1", .ethernet), ("eth2", .ethernet)] },
    dns :=
      { servers := ["2001:db8::1", "192.0.2.53"],
        searches := ["example.com"],
        options := ["rotate"] } }

/-- The IPv6 zone scenario of the spec: a link-local server bound to
`eth3`. -/
def zoneScenarioState : MergedNetworkState :=
  { interfaces :=
      { kernel_ifaces := [("eth3", { eth2Iface with name := "eth3" })],
        insert_order := [("eth3", .ethernet)] },
    dns :=
      { servers := ["fe80::1%eth3"], searches := [], options := [] } }

/-- C7 witness input: an enabled, DHCP-off IPv4 stack carrying a client id
and auto options. -/
def c7V4Input : InterfaceIpv4 :=
  { InterfaceIpv4.default with
    enabled := true, dhcp := some false,
    dhcp_client_id := some .IaidPlusDuid, auto_dns := some true,
    dhcp_send_hostname := some true, dhcp_custom_hostname := some "h" }

/-- The sanitize result of `c7V4Input`. -/
def c7V4Output : InterfaceIpv4 :=
  { InterfaceIpv4.default with enabled := true, dhcp := some false }

/-- The sanitize result of `c7V6Duid`: the DUID survives. -/
def c7V6Output : InterfaceIpv6 :=
  { InterfaceIpv6.default with enabled := true, dhcp_duid := some .Uuid }

/-- C8 witness input: token `::0.0.250.193` on an otherwise default stack. -/
def c8CanonInput : InterfaceIpv6 :=
  { InterfaceIpv6.default with token := some "::0.0.250.193" }

/-- The sanitize result of `c8CanonInput` (and of the same stack with token
`::fac1`): the token is canonicalized to `::fac1`. -/
def c8CanonOutput : InterfaceIpv6 :=
  { InterfaceIpv6.default with token := some "::fac1" }

/-- C8 witness input: the empty token. -/
def c8EmptyInput : InterfaceIpv6 :=
  { InterfaceIpv6.default with token := some "" }

/-- The sanitize result of `c8EmptyInput`: the token becomes `::`. -/
def c8EmptyOutput : InterfaceIpv6 :=
  { InterfaceIpv6.default with token := some "::" }

/-- C8 witness input: an enabled stack with `autoconf: false` and a
non-trivial token. -/
def c8ConflictInput : InterfaceIpv6 :=
  { InterfaceIpv6.default with
    enabled := true, autoconf := some false, token := some "::fac1" }

/-- C8 witness input: an unparseable token. -/
def c8BadParseInput : InterfaceIpv6 :=
  { InterfaceIpv6.default with token := some "junk" }

/-- C8 witness input: a token whose leading 64 bits are not zero. -/
def c8LeadInput : InterfaceIpv6 :=
  { InterfaceIpv6.default with token := some "2001:db8::1" }

/-- The family preference of `save_dns_to_iface` (`nm/dns.rs`): IPv6 is
preferred exactly when the first global DNS server is an IPv6 address. -/
def prefer6 (st : MergedNetworkState) : Bool :=
  (st.dns.servers.head?.map fun s => is_ipv6_addr s).getD false

/-- The IPv4 stack applied on `eth1` in the DNS-split scenario. -/
def eth1V4Conf : InterfaceIpv4 :=
  { InterfaceIpv4.default with
    enabled := true, dhcp := some false, addresses := some [staticV4Addr] }

/-- The IPv6 stack applied on `eth2` in the DNS-split scenario. -/
def eth2V6Conf : InterfaceIpv6 :=
  { InterfaceIpv6.default with
    enabled := true, dhcp := some false, autoconf := some false,
    addresses := some [staticV6Addr] }

/-- The `for_apply` slots of `eth1Iface`. -/
def eth1Slots : BaseIfaceSlots :=
  { ipv4 := some eth1V4Conf, ipv6 := none, can_have_ip := true }

/-- The `for_apply` slots of `eth2Iface`. -/
def eth2Slots : BaseIfaceSlots :=
  { ipv4 := none, ipv6 := some eth2V6Conf, can_have_ip := true }

/-- Invariant of addresses emitted by `InterfaceIpv4::sanitize`: non-auto,
with lifetimes and `mptcp_flags` cleared. -/
def addrClean4 (a : InterfaceIpAddr) : Bool :=
  !a.is_auto && a.valid_life_time.isNone && a.preferred_life_time.isNone
    && a.mptcp_flags.isNone

/-- Invariant established by `InterfaceIpv4::sanitize` on its output: the
dynamic defaults are materialised, a disabled stack has no dhcp/addresses, a
non-DHCP stack has all auto and DHCP options cleared, the hostname rule is
settled, and the address list is clean. -/
def sanitized4 (s : InterfaceIpv4) : Bool :=
  (!s.is_auto || (s.auto_dns.isSome && s.auto_routes.isSome
      && s.auto_gateway.isSome))
  && (s.enabled || (s.dhcp.isNone && s.addresses.isNone))
  && (s.dhcp == some true || (s.auto_dns.isNone && s.auto_gateway.isNone
      && s.auto_routes.isNone && s.auto_table_id.isNone
      && s.auto_route_metric.isNone && s.dhcp_client_id.isNone
      && s.dhcp_send_hostname.isNone && s.dhcp_custom_hostname.isNone))
  && (!(s.dhcp_send_hostname == some false) || s.dhcp_custom_hostname.isNone)
  && ((s.addresses.getD []).all addrClean4)

/-- The desired-state address checks of `InterfaceIpv4::sanitize`, as an
invariant of the output address list. -/
def addrChecks4 (l : List InterfaceIpAddr) (d : Bool) : Bool :=
  !d || (!(l.any fun a => a.ip.is_ipv6) && !(l.any fun a => 32 < a.prefixLength))

/-- Invariant of addresses emitted by `InterfaceIpv6::sanitize`:
`addrClean4` plus the unicast-link-local filter. -/
def addrClean6 (a : InterfaceIpAddr) : Bool :=
  !a.is_auto && a.valid_life_time.isNone && a.preferred_life_time.isNone
    && a.mptcp_flags.isNone && keepV6NonLinkLocal a

/-- Invariant established by `InterfaceIpv6::sanitize` on its output,
mirroring `sanitized4` for the IPv6 rules. -/
def sanitized6 (s : InterfaceIpv6) : Bool :=
  (!s.is_auto || (s.auto_dns.isSome && s.auto_routes.isSome
      && s.auto_gateway.isSome))
  && (s.enabled || (s.dhcp.isNone && s.autoconf.isNone
      && s.addresses.isNone))
  && (s.is_auto || (s.auto_dns.isNone && s.auto_gateway.isNone
      && s.auto_routes.isNone && s.auto_table_id.isNone
      && s.auto_route_metric.isNone && s.dhcp_send_hostname.isNone
      && s.dhcp_custom_hostname.isNone))
  && (!(s.dhcp_send_hostname == some false) || s.dhcp_custom_hostname.isNone)
  && ((s.addresses.getD []).all addrClean6)

/-- The desired-state prefix-length check of `InterfaceIpv6::sanitize`, as
an invariant of the output address list. -/
def addrChecks6 (l : List InterfaceIpAddr) (d : Bool) : Bool :=
  !d || !(l.any fun a => 128 < a.prefixLength)

/-!
### Helper lemmas
-/

theorem isIpv6Addr_eq_contains (s : String) :
    is_ipv6_addr s = s.contains ':' := by
  have h1 : s.contains ':' = true ↔ ':' ∈ s.data := String.contains_iff s ':'
  have h2 : is_ipv6_addr s = true ↔ ':' ∈ s.data := by
    simp [is_ipv6_addr]
  cases hb : s.contains ':' with
  | true => exact h2.mpr (h1.mp hb)
  | false =>
    cases ha : is_ipv6_addr s with
    | true => exact absurd (h1.mpr (h2.mp ha)) (by simp [hb])
    | false => rfl

theorem split_dns_servers_go (l : List String) (a b : List String) :
    l.foldl
      (fun acc srv =>
        if is_ipv6_addr srv then (acc.1, acc.2 ++ [srv])
        else (acc.1 ++ [srv], acc.2)) (a, b)
      = (a ++ l.filter (fun s => !is_ipv6_addr s), b ++ l.filter is_ipv6_addr) := by
  induction l generalizing a b with
  | nil => simp
  | cons x xs ih =>
    by_cases hx : is_ipv6_addr x
    · simp [hx, List.filter, ih]
    · simp at hx
      simp [hx, List.filter, ih]

theorem split_dns_servers_eq (srvs : List String) :
    split_dns_servers srvs
      = (srvs.filter (fun s => !is_ipv6_addr s), srvs.filter is_ipv6_addr) := by
  simpa [split_dns_servers] using split_dns_servers_go srvs [] []

theorem mixed_pattern_fold (l : List String) (acc : List Char) :
    l.foldl
      (fun pat srv =>
        let cur : Char := if is_ipv6_addr srv then '6' else '4'
        if pat.getLast? == some cur then pat else pat ++ [cur]) acc
      = acc ++ dedupFrom acc.getLast? (l.map famChar) := by
  induction l generalizing acc with
  | nil => simp [dedupFrom]
  | cons x xs ih =>
    simp only [List.foldl, List.map, dedupFrom, famChar]
    by_cases hx : acc.getLast? = some (if is_ipv6_addr x then '6' else '4')
    · have hx2 : (some (if is_ipv6_addr x then '6' else '4') == acc.getLast?) = true := by
        simp [hx]
      simp only [hx, beq_self_eq_true, if_true, hx2, ih]
    · have hx1 : (acc.getLast? == some (if is_ipv6_addr x then '6' else '4')) = false := by
        simp [hx]
      have hx2 : (some (if is_ipv6_addr x then '6' else '4') == acc.getLast?) = false := by
        simp
        intro h
        exact absurd h.symm hx
      simp only [hx1, Bool.false_eq_true, if_false, hx2, ih,
        List.getLast?_concat, List.append_assoc, List.singleton_append]

theorem dedupFrom_eq_dedupAdj (l : List Char) :
    dedupFrom none l = dedupAdj l := by
  have key : ∀ (r : List Char) (c : Char), dedupAdj (c :: r) = c :: dedupFrom (some c) r := by
    intro r
    induction r with
    | nil => intro c; simp [dedupAdj, dedupFrom]
    | cons b r2 ih =>
      intro c
      by_cases hcb : c = b
      · subst hcb
        simp only [dedupAdj, beq_self_eq_true, if_true, ih, dedupFrom,
          Option.some.injEq]
      · have h1 : (c == b) = false := by simp [hcb]
        have h2 : (b == c) = false := by simp [Ne.symm hcb]
        simp only [dedupAdj, h1, Bool.false_eq_true, if_false, ih, dedupFrom]
        simp [h2]
  cases l with
  | nil => rfl
  | cons c r =>
    simp [dedupFrom, key]

theorem dedupFrom_length (l : List Char) (prev : Option Char) :
    (dedupFrom prev l).length ≤ l.length := by
  induction l generalizing prev with
  | nil => simp [dedupFrom]
  | cons c r ih =>
    simp only [dedupFrom]
    by_cases h : (some c == prev) = true
    · simp only [h, if_true]
      exact Nat.le_succ_of_le (ih prev)
    · simp only [Bool.not_eq_true] at h
      simp only [h, Bool.false_eq_true, if_false, List.length_cons]
      exact Nat.succ_le_succ (ih (some c))

theorem hasSub_length {sub l : List Char} (h : hasSub sub l = true) :
    sub.length ≤ l.length := by
  simp only [hasSub, List.any_eq_true] at h
  obtain ⟨t, ht, hp⟩ := h
  have h1 : sub <+: t := by
    exact List.isPrefixOf_iff_prefix.mp hp
  have h2 : t <:+ l := by
    exact (List.mem_tails t l).mp ht
  exact Nat.le_trans h1.length_le h2.length_le

theorem is_mixed_eq_compressed (srvs : List String) :
    is_mixed_dns_servers srvs
      = (hasSub ['4', '6', '4'] (compressFamilies srvs)
          || hasSub ['6', '4', '6'] (compressFamilies srvs)) := by
  simp only [is_mixed_dns_servers, mixed_pattern_fold, List.nil_append,
    List.getLast?_nil, dedupFrom_eq_dedupAdj, compressFamilies]

/-!
### Claim theorems
-/

/-- C4: DNS placement rejects a server list with `NotImplementedError`
exactly when the list's family pattern, after compressing runs of equal
family into a single character (`4` for IPv4, `6` for IPv6), contains `464`
or `646` as a substring; every other server list passes this check.  (The
`srvs.len() > 2` guard in `store_dns_config_to_iface` is subsumed: a
compressed pattern containing a three-character infix forces at least three
servers.) -/
theorem dns_rejects_iff_compressed_pattern (srvs : List String) :
    dns_placement_rejects srvs
      = (hasSub ['4', '6', '4'] (compressFamilies srvs)
          || hasSub ['6', '4', '6'] (compressFamilies srvs)) := by
  cases hr : (hasSub ['4', '6', '4'] (compressFamilies srvs)
      || hasSub ['6', '4', '6'] (compressFamilies srvs)) with
  | false =>
    simp only [dns_placement_rejects, is_mixed_eq_compressed, hr,
      Bool.and_false]
  | true =>
    have h3 : 3 ≤ (compressFamilies srvs).length := by
      rcases Bool.or_eq_true_iff.mp hr with h | h
      · exact hasSub_length h
      · exact hasSub_length h
    have h4 : (compressFamilies srvs).length ≤ srvs.length := by
      have := dedupFrom_length (srvs.map famChar) none
      simpa [compressFamilies, dedupFrom_eq_dedupAdj] using this
    have h5 : 2 < srvs.length := by omega
    simp only [dns_placement_rejects, is_mixed_eq_compressed, hr,
      Bool.and_true, decide_eq_true_eq]
    exact h5

/-- C10: throughout DNS placement, a server string is classified as IPv6 if
and only if it contains a colon: `is_ipv6_addr` agrees with
`String.contains`, the family split of `save_dns_to_iface` partitions by
that test alone, and strings that are not valid addresses are still
classified purely by colon presence. -/
theorem dns_family_classified_by_colon :
    (∀ s : String, is_ipv6_addr s = s.contains ':')
    ∧ (∀ srvs : List String,
        split_dns_servers srvs
          = (srvs.filter (fun s => !is_ipv6_addr s),
             srvs.filter is_ipv6_addr))
    ∧ (∀ srvs : List String,
        is_mixed_dns_servers srvs
          = (hasSub ['4', '6', '4'] (dedupAdj (srvs.map famChar))
              || hasSub ['6', '4', '6'] (dedupAdj (srvs.map famChar))))
    ∧ is_ipv6_addr "192.0.2.1:53" = true
    ∧ is_ipv6_addr "999.999.999.999" = false := by
  refine ⟨isIpv6Addr_eq_contains, split_dns_servers_eq, ?_, by decide, by decide⟩
  intro srvs
  simpa [compressFamilies] using is_mixed_eq_compressed srvs

/-- C1 counterexample: with `self = {enabled: true}` (only `enabled` in the
prop list) and an auto `current` holding addresses, every hypothesis of the
claim holds on the inputs (current is auto with addresses, self is enabled,
not auto, and has no addresses), yet `merge_ip` leaves `self.addresses`
unchanged (`None`) instead of copying the cleared current addresses: the
inherited `dhcp` makes the merged stack auto before the conversion check. -/
theorem merge_ip_dynamic_to_static_counterexample :
    c1Current.is_auto = true
    ∧ c1Current.addresses.isSome = true
    ∧ c1Desired.enabled = true
    ∧ c1Desired.is_auto = false
    ∧ is_ip_addrs_none_or_all_auto c1Desired.addresses = true
    ∧ (c1Desired.merge_ip c1Current).addresses = none
    ∧ c1Current.addresses.map (List.map clearLifetimes) ≠ none := by
  decide

/-- C1 (amended): the dynamic-to-static conversion condition of `merge_ip`
is evaluated after the `enabled`/`dhcp` (and, for IPv6, `autoconf`)
inheritance from `current`: with `en`, `dh` (and `ac`) denoting the
inherited values, `merge_ip` copies `current.addresses` with both lifetime
fields cleared exactly when `current.is_auto()`, `current.addresses` is
`Some`, `en` is true, the inherited stack is not auto, and `self.addresses`
is `None` or contains only auto or IPv6-link-local entries; in every other
case `self.addresses` is left unchanged. -/
theorem merge_ip_dynamic_to_static :
    (∀ s c : InterfaceIpv4,
      (s.merge_ip c).addresses =
        (let en := if s.prop_list.contains "enabled" then s.enabled else c.enabled
         let dh := if s.dhcp.isNone && en then c.dhcp else s.dhcp
         if c.is_auto && c.addresses.isSome && en && !(en && dh == some true)
            && is_ip_addrs_none_or_all_auto s.addresses then
          c.addresses.map (List.map clearLifetimes)
        else s.addresses))
    ∧ (∀ s c : InterfaceIpv6,
      (s.merge_ip c).addresses =
        (let en := if s.prop_list.contains "enabled" then s.enabled else c.enabled
         let dh := if s.dhcp.isNone && en then c.dhcp else s.dhcp
         let ac := if s.autoconf.isNone && en then c.autoconf else s.autoconf
         if c.is_auto && c.addresses.isSome && en
            && !(en && (dh == some true || ac == some true))
            && is_ip_addrs_none_or_all_auto s.addresses then
          c.addresses.map (List.map clearLifetimes)
        else s.addresses)) := by
  constructor
  · intro s c
    simp only [InterfaceIpv4.merge_ip]
    by_cases h1 : s.prop_list.contains "enabled" <;>
      simp only [h1, Bool.not_true, Bool.not_false, if_true, if_false,
        Bool.false_eq_true, Bool.true_eq_false, ite_true, ite_false] <;>
      split <;> split <;>
      (try simp_all [InterfaceIpv4.is_auto]) <;>
      (try split) <;>
      (first | rfl | tauto | aesop)
  · intro s c
    simp only [InterfaceIpv6.merge_ip]
    by_cases h1 : s.prop_list.contains "enabled" <;>
      simp only [h1, Bool.not_true, Bool.not_false, if_true, if_false,
        Bool.false_eq_true, Bool.true_eq_false, ite_true, ite_false] <;>
      split <;> split <;> split <;>
      (try simp_all [InterfaceIpv6.is_auto]) <;>
      (try split) <;>
      (first | rfl | tauto | aesop)

/-- C2 counterexample: the empty-set collapse does not apply to every
enabled stack with `Some([])`.  An enabled IPv6 stack with an empty address
list sanitizes successfully but stays enabled with `addresses = Some([])`
(IPv6 `sanitize` has no empty-set collapse at all), and an enabled *auto*
IPv4 stack with an empty address list also stays enabled. -/
theorem empty_addresses_collapse_counterexample :
    ((c2V6Empty.sanitize true).map fun s => (s.enabled, s.addresses))
        = .ok (true, some [])
    ∧ ((c2V4Auto.sanitize true).map fun s => (s.enabled, s.addresses))
        = .ok (true, some []) := by
  decide

/-- C2 (amended): for an IPv4 stack with `enabled = true`,
`addresses = Some([])` and `dhcp ≠ Some(true)` (so the stack is not auto),
`sanitize` succeeds and leaves the stack disabled with `dhcp = None` and
`addresses = None`; auto IPv4 stacks and IPv6 stacks are not collapsed. -/
theorem sanitize4_empty_collapse (s : InterfaceIpv4) (d : Bool)
    (h1 : s.enabled = true) (h2 : s.addresses = some [])
    (h3 : s.dhcp ≠ some true) :
    ∃ s', s.sanitize d = .ok s' ∧ s'.enabled = false ∧ s'.dhcp = none
      ∧ s'.addresses = none := by
  have hauto : s.is_auto = false := by
    simp [InterfaceIpv4.is_auto, h3]
  simp only [InterfaceIpv4.sanitize, hauto, h1, h2, Bool.false_eq_true,
    if_false, beq_self_eq_true, Bool.and_true, Bool.true_and, if_true,
    List.any_nil, Bool.and_false, san4Tail, processAddrs, List.filter_nil,
    List.map_nil]
  exact ⟨_, rfl, by simp, by simp, by simp⟩

/-- C2 witness: the collapse theorem applied to a concrete enabled IPv4
stack with an empty address list. -/
theorem sanitize4_empty_collapse_witness :
    ∃ s', InterfaceIpv4.sanitize
        { InterfaceIpv4.default with enabled := true, addresses := some [] }
        true = .ok s'
      ∧ s'.enabled = false ∧ s'.dhcp = none ∧ s'.addresses = none :=
  sanitize4_empty_collapse
    { InterfaceIpv4.default with enabled := true, addresses := some [] }
    true (by decide) (by decide) (by decide)

theorem san4Tail_nonauto (X : InterfaceIpv4)
    (h : X.enabled = false ∨ X.dhcp ≠ some true) :
    (san4Tail X).auto_dns = none ∧ (san4Tail X).auto_gateway = none
    ∧ (san4Tail X).auto_routes = none ∧ (san4Tail X).auto_table_id = none
    ∧ (san4Tail X).auto_route_metric = none
    ∧ (san4Tail X).dhcp_client_id = none
    ∧ (san4Tail X).dhcp_send_hostname = none
    ∧ (san4Tail X).dhcp_custom_hostname = none := by
  unfold san4Tail
  rcases h with h | h
  · simp [h]
  · by_cases he : X.enabled <;> simp [he, h]

theorem san6Mid_nonauto (X : InterfaceIpv6)
    (h : X.enabled = false ∨ (X.dhcp ≠ some true ∧ X.autoconf ≠ some true)) :
    (san6Mid X).auto_dns = none ∧ (san6Mid X).auto_gateway = none
    ∧ (san6Mid X).auto_routes = none ∧ (san6Mid X).auto_table_id = none
    ∧ (san6Mid X).auto_route_metric = none
    ∧ (san6Mid X).dhcp_send_hostname = none
    ∧ (san6Mid X).dhcp_custom_hostname = none := by
  have hauto : X.is_auto = false := by
    rcases h with h | ⟨h1, h2⟩
    · simp [InterfaceIpv6.is_auto, h]
    · simp [InterfaceIpv6.is_auto, h1, h2]
  unfold san6Mid
  rcases h with h | ⟨h1, h2⟩
  · simp [hauto, h, InterfaceIpv6.is_auto]
  · by_cases he : X.enabled <;>
      simp [hauto, he, h1, h2, InterfaceIpv6.is_auto]

theorem san6Mid_duid (X : InterfaceIpv6) :
    (san6Mid X).dhcp_duid = X.dhcp_duid := by
  simp only [san6Mid]
  split <;> split <;> split <;> rfl

theorem san6Token_preserves (X : InterfaceIpv6) (d : Bool)
    (Y : InterfaceIpv6) (h : san6Token X d = .ok Y) :
    Y.dhcp_duid = X.dhcp_duid ∧ Y.auto_dns = X.auto_dns
    ∧ Y.auto_gateway = X.auto_gateway ∧ Y.auto_routes = X.auto_routes
    ∧ Y.auto_table_id = X.auto_table_id
    ∧ Y.auto_route_metric = X.auto_route_metric
    ∧ Y.dhcp_send_hostname = X.dhcp_send_hostname
    ∧ Y.dhcp_custom_hostname = X.dhcp_custom_hostname := by
  unfold san6Token at h
  split at h
  · split at h
    · cases h
    · split at h
      · cases h
        simp
      · cases h
  · cases h
    simp

theorem san6Rest_nonauto (X : InterfaceIpv6) (d : Bool) (s' : InterfaceIpv6)
    (hcond : X.enabled = false ∨ (X.dhcp ≠ some true ∧ X.autoconf ≠ some true))
    (h : san6Rest X d = .ok s') :
    s'.auto_dns = none ∧ s'.auto_gateway = none ∧ s'.auto_routes = none
    ∧ s'.auto_table_id = none ∧ s'.auto_route_metric = none
    ∧ s'.dhcp_send_hostname = none ∧ s'.dhcp_custom_hostname = none := by
  have hmid := san6Mid_nonauto X hcond
  unfold san6Rest at h
  split at h
  · cases h
  · rename_i s7 hs7
    have htok := san6Token_preserves _ d _ hs7
    obtain ⟨t1, t2, t3, t4, t5, t6, t7, t8⟩ := htok
    obtain ⟨m1, m2, m3, m4, m5, m6, m7⟩ := hmid
    split at h
    · cases h
      refine ⟨?_, ?_, ?_, ?_, ?_, ?_, ?_⟩ <;>
        simp [t2, t3, t4, t5, t6, t7, t8, m1, m2, m3, m4, m5, m6, m7]
    · cases h
      refine ⟨?_, ?_, ?_, ?_, ?_, ?_, ?_⟩ <;>
        simp [t2, t3, t4, t5, t6, t7, t8, m1, m2, m3, m4, m5, m6, m7]

theorem san6Rest_duid (X : InterfaceIpv6) (d : Bool) (s' : InterfaceIpv6)
    (h : san6Rest X d = .ok s') : s'.dhcp_duid = X.dhcp_duid := by
  unfold san6Rest at h
  split at h
  · cases h
  · rename_i s7 hs7
    have htok := san6Token_preserves _ d _ hs7
    split at h
    · cases h
      simp [htok.1, san6Mid_duid]
    · cases h
      rw [htok.1, san6Mid_duid]

/-- C7 counterexample: a non-auto IPv6 stack with a DHCPv6 DUID sanitizes
successfully but keeps `dhcp_duid = Some(Uuid)` — IPv6 `sanitize` never
clears the DUID, contradicting the claim that the family-specific DHCP
identifier is cleared on non-auto stacks. -/
theorem sanitize_nonauto_duid_counterexample :
    c7V6Duid.is_auto = false
    ∧ ((c7V6Duid.sanitize true).map fun s => s.dhcp_duid)
        = .ok (some .Uuid) := by
  decide

/-- C7 (amended): after `sanitize` succeeds on a non-auto stack, all
`auto_*` fields, `dhcp_send_hostname` and `dhcp_custom_hostname` are
`None`, and for IPv4 `dhcp_client_id` is `None` as well; IPv6 `sanitize`
leaves `dhcp_duid` untouched on every stack. -/
theorem sanitize_nonauto_clears :
    (∀ (s : InterfaceIpv4) (d : Bool) (s' : InterfaceIpv4),
      s.is_auto = false → s.sanitize d = .ok s' →
      s'.auto_dns = none ∧ s'.auto_gateway = none ∧ s'.auto_routes = none
      ∧ s'.auto_table_id = none ∧ s'.auto_route_metric = none
      ∧ s'.dhcp_client_id = none ∧ s'.dhcp_send_hostname = none
      ∧ s'.dhcp_custom_hostname = none)
    ∧ (∀ (s : InterfaceIpv6) (d : Bool) (s' : InterfaceIpv6),
      s.is_auto = false → s.sanitize d = .ok s' →
      s'.auto_dns = none ∧ s'.auto_gateway = none ∧ s'.auto_routes = none
      ∧ s'.auto_table_id = none ∧ s'.auto_route_metric = none
      ∧ s'.dhcp_send_hostname = none ∧ s'.dhcp_custom_hostname = none)
    ∧ (∀ (s : InterfaceIpv6) (d : Bool) (s' : InterfaceIpv6),
      s.sanitize d = .ok s' → s'.dhcp_duid = s.dhcp_duid) := by
  refine ⟨?_, ?_, ?_⟩
  · intro s d s' hauto h
    have hcase : s.enabled = false ∨ s.dhcp ≠ some true := by
      cases he : s.enabled
      · exact Or.inl rfl
      · right
        intro hd
        rw [InterfaceIpv4.is_auto, he, hd] at hauto
        simp at hauto
    by_cases hcoll : (s.addresses == some [] && s.enabled) = true
    · simp only [InterfaceIpv4.sanitize, hauto, Bool.false_eq_true, if_false,
        hcoll, if_true] at h
      split at h
      · split at h
        · cases h
        · split at h
          · cases h
          · cases h
            exact san4Tail_nonauto _ (Or.inl (by simp))
      · cases h
        exact san4Tail_nonauto _ (Or.inl (by simp))
    · simp only [InterfaceIpv4.sanitize, hauto, Bool.false_eq_true, if_false,
        hcoll] at h
      split at h
      · split at h
        · cases h
        · split at h
          · cases h
          · cases h
            rcases hcase with hc | hc
            · exact san4Tail_nonauto _ (Or.inl (by simp [hc]))
            · exact san4Tail_nonauto _ (Or.inr (by simp [hc]))
      · cases h
        rcases hcase with hc | hc
        · exact san4Tail_nonauto _ (Or.inl (by simp [hc]))
        · exact san4Tail_nonauto _ (Or.inr (by simp [hc]))
  · intro s d s' hauto h
    have hcase : ∀ X : InterfaceIpv6, X.enabled = s.enabled → X.dhcp = s.dhcp →
        X.autoconf = s.autoconf →
        X.enabled = false ∨ (X.dhcp ≠ some true ∧ X.autoconf ≠ some true) := by
      intro X h1 h2 h3
      rw [h1, h2, h3]
      cases he : s.enabled
      · exact Or.inl rfl
      · right
        rw [InterfaceIpv6.is_auto, he] at hauto
        simp only [Bool.true_and] at hauto
        constructor <;> intro hx <;> rw [hx] at hauto <;> simp at hauto
    unfold InterfaceIpv6.sanitize at h
    split at h
    · split at h
      · cases h
      · split at h
        · cases h
        · exact san6Rest_nonauto _ d _ (hcase _ (by simp) (by simp) (by simp)) h
    · exact san6Rest_nonauto _ d _ (hcase _ rfl rfl rfl) h
  · intro s d s' h
    unfold InterfaceIpv6.sanitize at h
    split at h
    · split at h
      · cases h
      · split at h
        · cases h
        · have := san6Rest_duid _ d _ h
          simpa using this
    · exact san6Rest_duid _ d _ h

/-- C7 witness: the clears applied to a concrete DHCP-off IPv4 stack and a
concrete non-auto IPv6 stack, and the DUID preservation on the latter. -/
theorem sanitize_nonauto_clears_witness :
    (c7V4Output.auto_dns = none ∧ c7V4Output.auto_gateway = none
      ∧ c7V4Output.auto_routes = none ∧ c7V4Output.auto_table_id = none
      ∧ c7V4Output.auto_route_metric = none
      ∧ c7V4Output.dhcp_client_id = none
      ∧ c7V4Output.dhcp_send_hostname = none
      ∧ c7V4Output.dhcp_custom_hostname = none)
    ∧ (c7V6Output.auto_dns = none ∧ c7V6Output.auto_gateway = none
      ∧ c7V6Output.auto_routes = none ∧ c7V6Output.auto_table_id = none
      ∧ c7V6Output.auto_route_metric = none
      ∧ c7V6Output.dhcp_send_hostname = none
      ∧ c7V6Output.dhcp_custom_hostname = none)
    ∧ c7V6Output.dhcp_duid = c7V6Duid.dhcp_duid :=
  ⟨sanitize_nonauto_clears.1 c7V4Input true c7V4Output (by decide) (by decide),
   sanitize_nonauto_clears.2.1 c7V6Duid true c7V6Output (by decide) (by decide),
   sanitize_nonauto_clears.2.2 c7V6Duid true c7V6Output (by decide)⟩

theorem ite_append {c : Prop} [Decidable c] (a b l : List String) :
    (if c then a else b) ++ l = if c then a ++ l else b ++ l := by
  split <;> rfl

/-- C9 counterexample: the user writes only `token`, a key of the
`ipv4`/`ipv6` schema, yet deserialization succeeds with an empty
`prop_list`: `get_ip_prop_list` does not track `token` (nor
`auto-route-metric` or `allow-extra-address`). -/
theorem prop_list_counterexample :
    "token" ∈ interfaceIpSchemaKeys
    ∧ ((InterfaceIpv6.deserialize ["token"] c9TokenIp).map fun r =>
        r.prop_list) = .ok [] := by
  decide

/-- C9 (amended): after deserializing an `ipv4`/`ipv6` section, `prop_list`
is exactly the set of user-written keys among the thirteen tracked keys
(wire names mapped to internal names); the schema keys `auto-route-metric`,
`allow-extra-address` and `token` are never recorded. -/
theorem prop_list_is_tracked_present_keys :
    (∀ keys : List String,
      get_ip_prop_list keys
        = trackedIpKeys.foldr
            (fun p acc => if keys.contains p.1 then p.2 :: acc else acc) [])
    ∧ (∀ (keys : List String) (ip : InterfaceIp) (r : InterfaceIpv4),
        InterfaceIpv4.deserialize keys ip = .ok r →
        r.prop_list = get_ip_prop_list keys)
    ∧ (∀ (keys : List String) (ip : InterfaceIp) (r : InterfaceIpv6),
        InterfaceIpv6.deserialize keys ip = .ok r →
        r.prop_list = get_ip_prop_list keys) := by
  refine ⟨?_, ?_, ?_⟩
  · intro keys
    simp only [get_ip_prop_list, trackedIpKeys, List.foldr, List.append_assoc,
      ite_append, List.cons_append, List.singleton_append, List.nil_append,
      List.append_nil]
  · intro keys ip r h
    unfold InterfaceIpv4.deserialize at h
    by_cases h1 : "autoconf" ∈ get_ip_prop_list keys
    · simp [h1] at h
    · by_cases h2 : "dhcp_duid" ∈ get_ip_prop_list keys
      · simp [h1, h2] at h
      · simp [h1, h2] at h
        rw [← h]
  · intro keys ip r h
    unfold InterfaceIpv6.deserialize at h
    by_cases h1 : "dhcp_client_id" ∈ get_ip_prop_list keys
    · simp [h1] at h
    · simp [h1] at h
      rw [← h]

/-- C9 witness: the tracked-key equality evaluated on a concrete key set,
and the wiring of the prop list through `deserialize`. -/
theorem prop_list_is_tracked_present_keys_witness :
    get_ip_prop_list ["dhcp", "address", "token"]
      = trackedIpKeys.foldr
          (fun p acc =>
            if (["dhcp", "address", "token"] : List String).contains p.1 then
              p.2 :: acc
            else acc) []
    ∧ ({ InterfaceIpv6.fromIp c9TokenIp with
          prop_list := get_ip_prop_list ["token"] } : InterfaceIpv6).prop_list
        = get_ip_prop_list ["token"] :=
  ⟨prop_list_is_tracked_present_keys.1 ["dhcp", "address", "token"],
   prop_list_is_tracked_present_keys.2.2 ["token"] c9TokenIp _ (by decide)⟩

theorem san6Mid_token (X : InterfaceIpv6) :
    (san6Mid X).token = X.token := by
  simp only [san6Mid]
  split <;> split <;> split <;> rfl

theorem san6Mid_autoconf_of_enabled (X : InterfaceIpv6)
    (h : X.enabled = true) : (san6Mid X).autoconf = X.autoconf := by
  simp only [san6Mid]
  split <;> split <;> split <;> simp_all

theorem sanitize_token_err_kind (t : String) (e : NmstateError)
    (h : sanitize_ipv6_token_to_string t = .error e) :
    e = ⟨.InvalidArgument⟩ := by
  unfold sanitize_ipv6_token_to_string at h
  split at h
  · cases h
  · split at h
    · split at h
      · cases h
        rfl
      · cases h
    · cases h
      rfl

theorem san6Token_conflict (X : InterfaceIpv6) (t : String)
    (ha : X.autoconf = some false) (ht : X.token = some t)
    (h1 : t ≠ "") (h2 : t ≠ "::") :
    san6Token X true = .error ⟨.InvalidArgument⟩ := by
  simp only [san6Token, ht, ha]
  have hb1 : (t == "") = false := by simp [h1]
  have hb2 : (t == "::") = false := by simp [h2]
  simp [hb1, hb2]

theorem san6Token_canon_err (X : InterfaceIpv6) (d : Bool) (t : String)
    (ht : X.token = some t)
    (hc : sanitize_ipv6_token_to_string t = .error ⟨.InvalidArgument⟩) :
    ∃ e, san6Token X d = .error e ∧ e.kind = .InvalidArgument := by
  simp only [san6Token, ht]
  split
  · exact ⟨⟨.InvalidArgument⟩, rfl, rfl⟩
  · rw [hc]
    exact ⟨⟨.InvalidArgument⟩, rfl, rfl⟩

theorem san6Token_tok_ok (X : InterfaceIpv6) (d : Bool) (Y : InterfaceIpv6)
    (t : String) (h : san6Token X d = .ok Y) (ht : X.token = some t) :
    ∃ t2, sanitize_ipv6_token_to_string t = .ok t2 ∧ Y.token = some t2 := by
  simp only [san6Token, ht] at h
  split at h
  · cases h
  · split at h
    · rename_i t2 hcanon
      cases h
      exact ⟨t2, hcanon, rfl⟩
    · cases h

theorem san6Rest_token_conflict (X : InterfaceIpv6) (t : String)
    (he : X.enabled = true) (ha : X.autoconf = some false)
    (ht : X.token = some t) (h1 : t ≠ "") (h2 : t ≠ "::") :
    san6Rest X true = .error ⟨.InvalidArgument⟩ := by
  unfold san6Rest
  rw [san6Token_conflict (san6Mid X) t
    (by rw [san6Mid_autoconf_of_enabled X he, ha])
    (by rw [san6Mid_token, ht]) h1 h2]

theorem san6Rest_token_canon_err (X : InterfaceIpv6) (d : Bool) (t : String)
    (ht : X.token = some t)
    (hc : sanitize_ipv6_token_to_string t = .error ⟨.InvalidArgument⟩) :
    ∃ e, san6Rest X d = .error e ∧ e.kind = .InvalidArgument := by
  obtain ⟨e, he, hk⟩ := san6Token_canon_err (san6Mid X) d t
    (by rw [san6Mid_token, ht]) hc
  unfold san6Rest
  rw [he]
  exact ⟨e, rfl, hk⟩

theorem san6Rest_token_ok (X : InterfaceIpv6) (d : Bool)
    (s' : InterfaceIpv6) (t : String) (h : san6Rest X d = .ok s')
    (ht : X.token = some t) :
    ∃ t2, sanitize_ipv6_token_to_string t = .ok t2 ∧ s'.token = some t2 := by
  unfold san6Rest at h
  split at h
  · cases h
  · rename_i s7 heq
    obtain ⟨t2, hcanon, htok⟩ := san6Token_tok_ok (san6Mid X) d s7 t heq
      (by rw [san6Mid_token, ht])
    split at h
    · cases h
      exact ⟨t2, hcanon, htok⟩
    · cases h
      exact ⟨t2, hcanon, htok⟩

theorem sanitize_token_err_of_parse_none (t : String) (h1 : t ≠ "")
    (h2 : ipv6FromStr t = none) :
    sanitize_ipv6_token_to_string t = .error ⟨.InvalidArgument⟩ := by
  have he : t.isEmpty = false := by
    cases hb : t.isEmpty
    · rfl
    · exact absurd ((String.isEmpty_iff t).mp hb) h1
  simp only [sanitize_ipv6_token_to_string, he, Bool.false_eq_true, if_false,
    h2]

theorem sanitize_token_err_of_lead_nonzero (t : String)
    (segs : List Nat) (h2 : ipv6FromStr t = some segs)
    (h3 : ((segs.take 4).any fun x => x != 0) = true) :
    sanitize_ipv6_token_to_string t = .error ⟨.InvalidArgument⟩ := by
  have h1 : t ≠ "" := by
    intro hh
    subst hh
    rw [show ipv6FromStr "" = none from by decide] at h2
    cases h2
  have he : t.isEmpty = false := by
    cases hb : t.isEmpty
    · rfl
    · exact absurd ((String.isEmpty_iff t).mp hb) h1
  simp only [sanitize_ipv6_token_to_string, he, Bool.false_eq_true, if_false,
    h2, h3, if_true]

theorem sanitize6_token_result (s : InterfaceIpv6) (d : Bool)
    (s' : InterfaceIpv6) (t : String) (h : s.sanitize d = .ok s')
    (ht : s.token = some t) :
    ∃ t2, sanitize_ipv6_token_to_string t = .ok t2 ∧ s'.token = some t2 := by
  unfold InterfaceIpv6.sanitize at h
  split at h
  · split at h
    · cases h
    · split at h
      · cases h
      · exact san6Rest_token_ok _ d s' t h (by simp [ht])
  · exact san6Rest_token_ok _ d s' t h ht

theorem sanitize6_rest_err_lift (s : InterfaceIpv6) (d : Bool)
    (hrest : ∀ X : InterfaceIpv6, X.enabled = s.enabled →
      X.autoconf = s.autoconf → X.token = s.token →
      ∃ e, san6Rest X d = .error e ∧ e.kind = .InvalidArgument) :
    ∃ e, s.sanitize d = .error e ∧ e.kind = .InvalidArgument := by
  unfold InterfaceIpv6.sanitize
  split
  · split
    · exact ⟨⟨.InvalidArgument⟩, rfl, rfl⟩
    · split
      · exact ⟨⟨.InvalidArgument⟩, rfl, rfl⟩
      · exact hrest _ (by simp) (by simp) (by simp)
  · exact hrest _ rfl rfl rfl

/-- C8 counterexample: on a *disabled* desired stack the claim's premises
hold (`autoconf = Some(false)`, non-trivial token), yet `sanitize` succeeds
and canonicalizes the token: the disabled-clears rule erases `autoconf`
before the token rule reads it. -/
theorem ipv6_token_counterexample :
    c8Disabled.autoconf = some false
    ∧ c8Disabled.token = some "::fac1"
    ∧ ((c8Disabled.sanitize true).map fun s => s.token)
        = .ok (some "::fac1") := by
  decide

/-- C8 (amended): for a desired *enabled* IPv6 stack with
`autoconf = Some(false)` and a token that is neither empty nor `::`,
`sanitize` fails with `InvalidArgument`.  For any stack whose token does
not parse as an IPv6 address, or parses with a non-zero leading 64 bits,
`sanitize` fails with `InvalidArgument`.  On success the token is rewritten
through `sanitize_ipv6_token_to_string`, so `::0.0.250.193` and `::fac1`
both canonicalize to `::fac1` and the empty token becomes `::`. -/
theorem ipv6_token_rules :
    (∀ (s : InterfaceIpv6) (t : String), s.enabled = true →
      s.autoconf = some false → s.token = some t → t ≠ "" → t ≠ "::" →
      ∃ e, s.sanitize true = .error e ∧ e.kind = .InvalidArgument)
    ∧ (∀ (s : InterfaceIpv6) (d : Bool) (t : String), s.token = some t →
        t ≠ "" → ipv6FromStr t = none →
        ∃ e, s.sanitize d = .error e ∧ e.kind = .InvalidArgument)
    ∧ (∀ (s : InterfaceIpv6) (d : Bool) (t : String) (segs : List Nat),
        s.token = some t → ipv6FromStr t = some segs →
        ((segs.take 4).any fun x => x != 0) = true →
        ∃ e, s.sanitize d = .error e ∧ e.kind = .InvalidArgument)
    ∧ (∀ (s : InterfaceIpv6) (d : Bool) (s' : InterfaceIpv6),
        s.token = some "::0.0.250.193" → s.sanitize d = .ok s' →
        s'.token = some "::fac1")
    ∧ (∀ (s : InterfaceIpv6) (d : Bool) (s' : InterfaceIpv6),
        s.token = some "::fac1" → s.sanitize d = .ok s' →
        s'.token = some "::fac1")
    ∧ (∀ (s : InterfaceIpv6) (d : Bool) (s' : InterfaceIpv6),
        s.token = some "" → s.sanitize d = .ok s' →
        s'.token = some "::") := by
  refine ⟨?_, ?_, ?_, ?_, ?_, ?_⟩
  · intro s t he ha ht h1 h2
    apply sanitize6_rest_err_lift
    intro X hXe hXa hXt
    rw [san6Rest_token_conflict X t (hXe.trans he) (hXa.trans ha)
      (hXt.trans ht) h1 h2]
    exact ⟨⟨.InvalidArgument⟩, rfl, rfl⟩
  · intro s d t ht h1 h2
    apply sanitize6_rest_err_lift
    intro X _ _ hXt
    exact san6Rest_token_canon_err X d t (hXt.trans ht)
      (sanitize_token_err_of_parse_none t h1 h2)
  · intro s d t segs ht h2 h3
    apply sanitize6_rest_err_lift
    intro X _ _ hXt
    exact san6Rest_token_canon_err X d t (hXt.trans ht)
      (sanitize_token_err_of_lead_nonzero t segs h2 h3)
  · intro s d s' ht h
    obtain ⟨t2, hc, ht'⟩ := sanitize6_token_result s d s' _ h ht
    rw [show sanitize_ipv6_token_to_string "::0.0.250.193" = .ok "::fac1"
      from by decide] at hc
    cases hc
    exact ht'
  · intro s d s' ht h
    obtain ⟨t2, hc, ht'⟩ := sanitize6_token_result s d s' _ h ht
    rw [show sanitize_ipv6_token_to_string "::fac1" = .ok "::fac1"
      from by decide] at hc
    cases hc
    exact ht'
  · intro s d s' ht h
    obtain ⟨t2, hc, ht'⟩ := sanitize6_token_result s d s' _ h ht
    rw [show sanitize_ipv6_token_to_string "" = .ok "::"
      from by decide] at hc
    cases hc
    exact ht'

/-- C8 witness: the token rules applied at concrete stacks: the
enabled/`autoconf: false` conflict, an unparseable token, a token with
non-zero leading bits, and the three concrete canonicalizations. -/
theorem ipv6_token_rules_witness :
    (∃ e, c8ConflictInput.sanitize true = .error e
      ∧ e.kind = .InvalidArgument)
    ∧ (∃ e, c8BadParseInput.sanitize true = .error e
      ∧ e.kind = .InvalidArgument)
    ∧ (∃ e, c8LeadInput.sanitize true = .error e
      ∧ e.kind = .InvalidArgument)
    ∧ c8CanonOutput.token = some "::fac1"
    ∧ c8EmptyOutput.token = some "::" :=
  ⟨ipv6_token_rules.1 c8ConflictInput "::fac1" (by decide) (by decide)
    (by decide) (by decide) (by decide),
   ipv6_token_rules.2.1 c8BadParseInput true "junk" (by decide) (by decide)
    (by decide),
   ipv6_token_rules.2.2.1 c8LeadInput true "2001:db8::1"
    [0x2001, 0xdb8, 0, 0, 0, 0, 0, 1] (by decide) (by decide) (by decide),
   ipv6_token_rules.2.2.2.1 c8CanonInput false c8CanonOutput (by decide)
    (by decide),
   ipv6_token_rules.2.2.2.2.2 c8EmptyInput false c8EmptyOutput (by decide)
    (by decide)⟩

theorem findSome?_eq_head?_filterMap {α β : Type} (f : α → Option β)
    (l : List α) : l.findSome? f = (l.filterMap f).head? := by
  induction l with
  | nil => rfl
  | cons a as ih =>
    cases hf : f a with
    | none =>
      rw [List.findSome?_cons, hf, List.filterMap_cons, hf]
      exact ih
    | some b =>
      rw [List.findSome?_cons, hf, List.filterMap_cons, hf]
      rfl

theorem extract_eq_head_zones (srvs : List String) :
    extract_ipv6_link_local_iface_from_dns_srv srvs
      = (srvs.filterMap serverZone).head? :=
  findSome?_eq_head?_filterMap serverZone srvs

theorem assoc_find_update_self (l : List (String × MergedIface)) (n : String)
    (f : MergedIface → MergedIface) (i : MergedIface)
    (h : ((l.find? fun p => p.1 == n).map Prod.snd) = some i) :
    (((l.map fun p => if p.1 == n then (p.1, f p.2) else p).find?
        fun p => p.1 == n).map Prod.snd) = some (f i) := by
  induction l with
  | nil => cases h
  | cons p ps ih =>
    by_cases hb : (p.1 == n) = true
    · simp [List.find?, hb] at h
      simp [List.find?, hb, h]
    · simp only [Bool.not_eq_true] at hb
      simp only [List.find?, hb] at h
      simp only [List.map, hb, Bool.false_eq_true, if_false, List.find?, hb]
      exact ih h

theorem assoc_find_update_other (l : List (String × MergedIface))
    (n n' : String) (f : MergedIface → MergedIface) (hne : n' ≠ n) :
    (((l.map fun p => if p.1 == n then (p.1, f p.2) else p).find?
        fun p => p.1 == n').map Prod.snd)
      = ((l.find? fun p => p.1 == n').map Prod.snd) := by
  induction l with
  | nil => rfl
  | cons p ps ih =>
    by_cases hb : (p.1 == n) = true
    · have hb' : (p.1 == n') = false := by
        have : p.1 = n := by simpa using hb
        simp [this, Ne.symm hne]
      simp only [List.map, hb, if_true, List.find?, hb', Bool.false_eq_true]
      exact ih
    · simp only [Bool.not_eq_true] at hb
      simp only [List.map, hb, Bool.false_eq_true, if_false, List.find?]
      by_cases hb' : (p.1 == n') = true
      · simp [hb']
      · simp only [Bool.not_eq_true] at hb'
        rw [hb']
        exact ih

theorem get_update_self (m : MergedInterfaces) (n : String)
    (f : MergedIface → MergedIface) (i : MergedIface)
    (h : m.get n = some i) : (m.update n f).get n = some (f i) :=
  assoc_find_update_self m.kernel_ifaces n f i h

theorem get_update_other (m : MergedInterfaces) (n n' : String)
    (f : MergedIface → MergedIface) (hne : n' ≠ n) :
    (m.update n f).get n' = m.get n' :=
  assoc_find_update_other m.kernel_ifaces n n' f hne

theorem save_v6_effect (st : MergedNetworkState) (n : String)
    (servers : List String) (pref : Bool) (i : MergedIface)
    (sl : BaseIfaceSlots) (c : InterfaceIpv6) (hn : n ≠ "")
    (hg : st.interfaces.get n = some i) (ha : i.for_apply = some sl)
    (hc : sl.ipv6 = some c) :
    ∃ i2, _save_dns_to_iface true n servers st pref
        = .ok { st with interfaces := st.interfaces.update n (fun _ => i2) }
      ∧ i2.for_apply = some { sl with ipv6 := some { c with dns := some {
            server := some (servers.map strip_dns_srv_zone),
            search := some (if pref then st.dns.searches else []),
            options := some (if pref then st.dns.options else []),
            priority := some (if pref then 40 else 50) } } } := by
  have hne : n.isEmpty = false := by
    cases hb : n.isEmpty
    · rfl
    · exact absurd ((String.isEmpty_iff n).mp hb) hn
  unfold _save_dns_to_iface saveDnsOnIface
  by_cases hch : i.is_changed <;> cases pref <;>
    (simp only [hne, Bool.false_eq_true, if_false, if_true, hg, hch,
      Bool.not_true, Bool.not_false, MergedIface.mark_as_changed, ha, hc,
      set_iface_dns_conf, DEFAULT_DNS_PRIORITY, Option.isNone_some] <;>
     exact ⟨_, rfl, by simp⟩)

theorem save_v4_effect (st : MergedNetworkState) (n : String)
    (servers : List String) (pref : Bool) (i : MergedIface)
    (sl : BaseIfaceSlots) (c : InterfaceIpv4) (hn : n ≠ "")
    (hg : st.interfaces.get n = some i) (ha : i.for_apply = some sl)
    (hc : sl.ipv4 = some c) :
    ∃ i2, _save_dns_to_iface false n servers st pref
        = .ok { st with interfaces := st.interfaces.update n (fun _ => i2) }
      ∧ i2.for_apply = some { sl with ipv4 := some { c with dns := some {
            server := some (servers.map strip_dns_srv_zone),
            search := some (if pref then st.dns.searches else []),
            options := some (if pref then st.dns.options else []),
            priority := some (if pref then 40 else 50) } } } := by
  have hne : n.isEmpty = false := by
    cases hb : n.isEmpty
    · rfl
    · exact absurd ((String.isEmpty_iff n).mp hb) hn
  unfold _save_dns_to_iface saveDnsOnIface
  by_cases hch : i.is_changed <;> cases pref <;>
    (simp only [hne, Bool.false_eq_true, if_false, if_true, hg, hch,
      Bool.not_true, Bool.not_false, MergedIface.mark_as_changed, ha, hc,
      set_iface_dns_conf, DEFAULT_DNS_PRIORITY, Option.isNone_some] <;>
     exact ⟨_, rfl, by simp⟩)

/-- C5: when DNS servers of both families are placed, `split_dns_servers`
partitions them by family preserving order, the holder of the preferred
family (the family of the first server) receives the full search and
option lists with priority 40, and the other holder receives empty search
and option lists with priority 50. -/
theorem dns_both_families_split (st : MergedNetworkState)
    (v4n v6n : String) (i4 i6 : MergedIface) (sl4 sl6 : BaseIfaceSlots)
    (c4 : InterfaceIpv4) (c6 : InterfaceIpv6)
    (hv4s : (split_dns_servers st.dns.servers).1 ≠ [])
    (hv6s : (split_dns_servers st.dns.servers).2 ≠ [])
    (hne : v4n ≠ v6n) (h4n : v4n ≠ "") (h6n : v6n ≠ "")
    (hg6 : st.interfaces.get v6n = some i6) (ha6 : i6.for_apply = some sl6)
    (hc6 : sl6.ipv6 = some c6)
    (hg4 : st.interfaces.get v4n = some i4) (ha4 : i4.for_apply = some sl4)
    (hc4 : sl4.ipv4 = some c4) :
    split_dns_servers st.dns.servers
      = (st.dns.servers.filter (fun s => !is_ipv6_addr s),
         st.dns.servers.filter is_ipv6_addr)
    ∧ ∃ st', save_dns_to_iface v4n v6n st = .ok st'
      ∧ ifaceDns st' v6n true = some {
          server := some ((split_dns_servers st.dns.servers).2.map
            strip_dns_srv_zone),
          search := some (if prefer6 st then st.dns.searches else []),
          options := some (if prefer6 st then st.dns.options else []),
          priority := some (if prefer6 st then 40 else 50) }
      ∧ ifaceDns st' v4n false = some {
          server := some ((split_dns_servers st.dns.servers).1.map
            strip_dns_srv_zone),
          search := some (if prefer6 st then [] else st.dns.searches),
          options := some (if prefer6 st then [] else st.dns.options),
          priority := some (if prefer6 st then 50 else 40) } := by
  refine ⟨split_dns_servers_eq _, ?_⟩
  rcases hp : split_dns_servers st.dns.servers with ⟨v4s, v6s⟩
  rw [hp] at hv4s hv6s
  simp only at hv4s hv6s
  obtain ⟨i62, h6eq, h6fa⟩ := save_v6_effect st v6n v6s (prefer6 st) i6 sl6
    c6 h6n hg6 ha6 hc6
  have hg4b : (st.interfaces.update v6n (fun _ => i62)).get v4n = some i4 := by
    rw [get_update_other st.interfaces v6n v4n _ hne]
    exact hg4
  obtain ⟨i42, h4eq, h4fa⟩ := save_v4_effect
    { st with interfaces := st.interfaces.update v6n (fun _ => i62) } v4n
    v4s (!prefer6 st) i4 sl4 c4 h4n hg4b ha4 hc4
  have hb6 : v6s.isEmpty = false := by
    cases hx : v6s
    · exact absurd hx hv6s
    · rfl
  have hb4 : v4s.isEmpty = false := by
    cases hx : v4s
    · exact absurd hx hv4s
    · rfl
  have hmain : save_dns_to_iface v4n v6n st
      = .ok (MergedNetworkState.mk
          ((st.interfaces.update v6n (fun _ => i62)).update v4n
            (fun _ => i42)) st.dns) := by
    unfold save_dns_to_iface
    rw [hp]
    simp only [prefer6] at h6eq h4eq
    simp only [hb6, hb4, Bool.not_false, if_true, h6eq]
    exact h4eq
  refine ⟨_, hmain, ?_, ?_⟩
  · have hgv6 : ((st.interfaces.update v6n (fun _ => i62)).update v4n
        (fun _ => i42)).get v6n = some i62 := by
      rw [get_update_other _ v4n v6n _ (Ne.symm hne)]
      exact get_update_self st.interfaces v6n _ i6 hg6
    simp [ifaceDns, hgv6, h6fa, hp]
  · have hgv4 : ((st.interfaces.update v6n (fun _ => i62)).update v4n
        (fun _ => i42)).get v4n = some i42 :=
      get_update_self _ v4n _ i4 hg4b
    cases hpref : prefer6 st <;>
      simp [ifaceDns, hgv4, h4fa, hp, hpref]

/-- C5 witness: the two-family scenario with holders `eth1` (IPv4) and
`eth2` (IPv6), where the first server is IPv6. -/
theorem dns_both_families_split_witness :
    split_dns_servers dnsScenarioState.dns.servers
      = (dnsScenarioState.dns.servers.filter (fun s => !is_ipv6_addr s),
         dnsScenarioState.dns.servers.filter is_ipv6_addr)
    ∧ ∃ st', save_dns_to_iface "eth1" "eth2" dnsScenarioState = .ok st'
      ∧ ifaceDns st' "eth2" true = some {
          server := some
            ((split_dns_servers dnsScenarioState.dns.servers).2.map
              strip_dns_srv_zone),
          search := some (if prefer6 dnsScenarioState
            then dnsScenarioState.dns.searches else []),
          options := some (if prefer6 dnsScenarioState
            then dnsScenarioState.dns.options else []),
          priority := some (if prefer6 dnsScenarioState then 40 else 50) }
      ∧ ifaceDns st' "eth1" false = some {
          server := some
            ((split_dns_servers dnsScenarioState.dns.servers).1.map
              strip_dns_srv_zone),
          search := some (if prefer6 dnsScenarioState then []
            else dnsScenarioState.dns.searches),
          options := some (if prefer6 dnsScenarioState then []
            else dnsScenarioState.dns.options),
          priority := some (if prefer6 dnsScenarioState then 50 else 40) } :=
  dns_both_families_split dnsScenarioState "eth1" "eth2" eth1Iface eth2Iface
    eth1Slots eth2Slots eth1V4Conf eth2V6Conf (by decide) (by decide)
    (by decide) (by decide) (by decide) (by decide) (by decide) (by decide)
    (by decide) (by decide) (by decide)

/-- C6: a `%iface` zone suffix on any DNS server overrides the four-step
IPv6 holder selection of `reselect_dns_ifaces` in favour of that
interface, and the suffix is stripped from the server before it is stored
on the holder (concretely: `fe80::1%eth3` selects `eth3` and stores
`fe80::1`). -/
theorem dns_zone_overrides_holder (m : MergedInterfaces)
    (servers cur4 cur6 : List String) (ext unm : String → Bool)
    (z : String) (rest : List String)
    (h : servers.filterMap serverZone = z :: rest) :
    (reselect_dns_ifaces m servers cur4 cur6 ext unm).2 = z
    ∧ ((save_dns_to_iface "" "eth3" zoneScenarioState).map fun st' =>
          ifaceDns st' "eth3" true)
      = .ok (some { server := some ["fe80::1"], search := some [],
                    options := some [], priority := some 40 }) := by
  constructor
  · unfold reselect_dns_ifaces
    rw [extract_eq_head_zones, h]
    rfl
  · decide

/-- C6 witness: the zone scenario, whose single server `fe80::1%eth3`
names `eth3`. -/
theorem dns_zone_overrides_holder_witness :
    (reselect_dns_ifaces zoneScenarioState.interfaces ["fe80::1%eth3"]
        [] [] (fun _ => false) (fun _ => false)).2 = "eth3"
    ∧ ((save_dns_to_iface "" "eth3" zoneScenarioState).map fun st' =>
          ifaceDns st' "eth3" true)
      = .ok (some { server := some ["fe80::1"], search := some [],
                    options := some [], priority := some 40 }) :=
  dns_zone_overrides_holder zoneScenarioState.interfaces ["fe80::1%eth3"]
    [] [] (fun _ => false) (fun _ => false) "eth3" [] (by decide)

theorem processAddrs_preclean (l : List InterfaceIpAddr) :
    (processAddrs l).all (fun a => !a.is_auto && a.valid_life_time.isNone
      && a.preferred_life_time.isNone) = true := by
  simp [processAddrs, List.all_eq_true, clearLifetimes, InterfaceIpAddr.is_auto]

theorem san4Tail_sanitized (s : InterfaceIpv4)
    (h5 : (s.addresses.getD []).all (fun a => !a.is_auto
      && a.valid_life_time.isNone && a.preferred_life_time.isNone) = true)
    (h1 : s.is_auto = true → (s.auto_dns.isSome && s.auto_routes.isSome
      && s.auto_gateway.isSome) = true) :
    sanitized4 (san4Tail s) = true := by
  by_cases he : s.enabled
  · by_cases hd : s.dhcp == some true
    · by_cases hs : s.dhcp_send_hostname == some false
      · simp_all [san4Tail, sanitized4, InterfaceIpv4.is_auto, addrClean4,
          List.all_eq_true, clearMptcp, InterfaceIpAddr.is_auto]
        cases hto : s.addresses <;> simp_all [clearMptcp]
      · simp_all [san4Tail, sanitized4, InterfaceIpv4.is_auto, addrClean4,
          List.all_eq_true, clearMptcp, InterfaceIpAddr.is_auto]
        cases hto : s.addresses <;> simp_all [clearMptcp]
    · simp_all [san4Tail, sanitized4, InterfaceIpv4.is_auto, addrClean4,
        List.all_eq_true, clearMptcp, InterfaceIpAddr.is_auto]
      cases hto : s.addresses <;> simp_all [clearMptcp]
  · simp_all [san4Tail, sanitized4, InterfaceIpv4.is_auto, addrClean4]

theorem defTrue_isSome (o : Option Bool) : (defTrue o).isSome = true := by
  cases o <;> simp [defTrue]

theorem sanitize4_establishes (s0 : InterfaceIpv4) (d : Bool)
    (s' : InterfaceIpv4) (h : InterfaceIpv4.sanitize s0 d = .ok s') :
    sanitized4 s' = true := by
  unfold InterfaceIpv4.sanitize at h
  by_cases ha : s0.is_auto
  · simp only [ha, if_true] at h
    cases haddr : s0.addresses with
    | none =>
      simp only [haddr, Except.ok.injEq] at h
      subst h
      apply san4Tail_sanitized
      · simp [haddr]
      · intro _
        simp [defTrue_isSome]
    | some l =>
      simp only [haddr] at h
      split at h
      · cases h
      · split at h
        · cases h
        · simp only [Except.ok.injEq] at h
          subst h
          apply san4Tail_sanitized
          · simpa using processAddrs_preclean l
          · intro _
            simp [defTrue_isSome]
  · simp only [ha, Bool.false_eq_true, if_false] at h
    by_cases hc : (s0.addresses == some [] && s0.enabled) = true
    · rw [if_pos hc] at h
      cases haddr : s0.addresses with
      | none =>
        simp only [haddr, Except.ok.injEq] at h
        subst h
        apply san4Tail_sanitized
        · simp [haddr]
        · intro hau
          exact absurd hau (by simp [InterfaceIpv4.is_auto])
      | some l =>
        simp only [haddr] at h
        split at h
        · cases h
        · split at h
          · cases h
          · simp only [Except.ok.injEq] at h
            subst h
            apply san4Tail_sanitized
            · simpa using processAddrs_preclean l
            · intro hau
              exact absurd hau (by simp [InterfaceIpv4.is_auto])
    · rw [if_neg hc] at h
      cases haddr : s0.addresses with
      | none =>
        simp only [haddr, Except.ok.injEq] at h
        subst h
        apply san4Tail_sanitized
        · simp [haddr]
        · intro hau
          exact absurd hau ha
      | some l =>
        simp only [haddr] at h
        split at h
        · cases h
        · split at h
          · cases h
          · simp only [Except.ok.injEq] at h
            subst h
            apply san4Tail_sanitized
            · simpa using processAddrs_preclean l
            · intro hau
              exact absurd hau ha

theorem san4Tail_addrs (s : InterfaceIpv4) :
    (san4Tail s).addresses
      = if s.enabled then s.addresses.map (List.map clearMptcp) else none := by
  by_cases he : s.enabled
  · by_cases hd : s.dhcp = some true
    · by_cases hs : s.dhcp_send_hostname = some false <;>
        simp [san4Tail, he, hd, hs]
    · simp [san4Tail, he, hd]
  · simp [san4Tail, he]

theorem processAddrs_checks (l : List InterfaceIpAddr)
    (h6 : (l.any fun a => a.ip.is_ipv6) = false)
    (hp : (l.any fun a => 32 < a.prefixLength) = false) :
    ((processAddrs l).any fun a => a.ip.is_ipv6) = false
    ∧ ((processAddrs l).any fun a => 32 < a.prefixLength) = false := by
  simp only [processAddrs, List.any_map, Function.comp, clearLifetimes,
    List.any_eq_false] at *
  constructor <;> intro a ha
  · exact h6 a (List.mem_of_mem_filter ha)
  · exact hp a (List.mem_of_mem_filter ha)

theorem map_clearMptcp_checks (l : List InterfaceIpAddr) :
    (((l.map clearMptcp).any fun a => a.ip.is_ipv6)
        = (l.any fun a => a.ip.is_ipv6))
    ∧ (((l.map clearMptcp).any fun a => 32 < a.prefixLength)
        = (l.any fun a => 32 < a.prefixLength)) := by
  constructor <;> simp [List.any_map, Function.comp_def, clearMptcp]

theorem sanitize4_establishes_checks (s0 : InterfaceIpv4) (d : Bool)
    (s' : InterfaceIpv4) (h : InterfaceIpv4.sanitize s0 d = .ok s') :
    addrChecks4 (s'.addresses.getD []) d = true := by
  cases d with
  | false => simp [addrChecks4]
  | true =>
    unfold InterfaceIpv4.sanitize at h
    have key : ∀ (s1 : InterfaceIpv4) (ad : Option (List InterfaceIpAddr)),
        s1.addresses = ad →
        (match ad with
          | some addrs =>
            if true && addrs.any (fun a => a.ip.is_ipv6) then
              (.error ⟨.InvalidArgument⟩ : Except NmstateError InterfaceIpv4)
            else if true && addrs.any (fun a => 32 < a.prefixLength) then
              .error ⟨.InvalidArgument⟩
            else
              .ok (san4Tail { s1 with addresses := some (processAddrs addrs) })
          | none => .ok (san4Tail s1)) = .ok s' →
        addrChecks4 (s'.addresses.getD []) true = true := by
      intro s1 ad had hm
      cases ad with
      | none =>
        simp only [Except.ok.injEq] at hm
        subst hm
        rw [addrChecks4, san4Tail_addrs]
        split <;> simp [had]
      | some l =>
        simp only [Bool.true_and] at hm
        split at hm
        · cases hm
        · split at hm
          · cases hm
          · rename_i h6 hp
            simp only [Bool.not_eq_true] at h6 hp
            simp only [Except.ok.injEq] at hm
            subst hm
            rw [addrChecks4, san4Tail_addrs]
            obtain ⟨hc6, hcp⟩ := processAddrs_checks l h6 hp
            split <;>
              simp [(map_clearMptcp_checks _).1, (map_clearMptcp_checks _).2,
                hc6, hcp]
    by_cases ha : s0.is_auto
    · simp only [ha, if_true] at h
      exact key
        { s0 with
            auto_dns := defTrue s0.auto_dns
            auto_routes := defTrue s0.auto_routes
            auto_gateway := defTrue s0.auto_gateway }
        s0.addresses rfl h
    · simp only [ha, Bool.false_eq_true, if_false] at h
      by_cases hc : (s0.addresses == some [] && s0.enabled) = true
      · rw [if_pos hc] at h
        exact key { s0 with enabled := false } s0.addresses rfl h
      · rw [if_neg hc] at h
        exact key s0 s0.addresses rfl h

theorem defTrue_of_isSome (o : Option Bool) (h : o.isSome = true) :
    defTrue o = o := by
  cases o
  · cases h
  · rfl

theorem clearLifetimes_of_clean (a : InterfaceIpAddr)
    (hv : a.valid_life_time = none) (hp : a.preferred_life_time = none) :
    clearLifetimes a = a := by
  cases a
  simp_all [clearLifetimes]

theorem clearMptcp_of_clean (a : InterfaceIpAddr)
    (hm : a.mptcp_flags = none) : clearMptcp a = a := by
  cases a
  simp_all [clearMptcp]

theorem processAddrs_of_clean (l : List InterfaceIpAddr)
    (h : l.all addrClean4 = true) : processAddrs l = l := by
  induction l with
  | nil => rfl
  | cons a as ih =>
    simp only [List.all_cons, Bool.and_eq_true, addrClean4] at h
    obtain ⟨⟨⟨⟨hau, hv⟩, hp⟩, _⟩, hrest⟩ := h
    have ihr := ih hrest
    simp only [processAddrs, List.filter_cons] at ihr ⊢
    rw [hau]
    rw [if_pos rfl]
    simp only [List.map_cons]
    rw [clearLifetimes_of_clean a (by simpa using hv) (by simpa using hp)]
    rw [show (List.filter (fun a => !a.is_auto) as).map clearLifetimes = as
      from ihr]

theorem map_clearMptcp_of_clean (l : List InterfaceIpAddr)
    (h : l.all addrClean4 = true) : l.map clearMptcp = l := by
  induction l with
  | nil => rfl
  | cons a as ih =>
    simp only [List.all_cons, Bool.and_eq_true, addrClean4] at h
    obtain ⟨⟨⟨⟨_, _⟩, _⟩, hm⟩, hrest⟩ := h
    simp only [List.map_cons]
    rw [clearMptcp_of_clean a (by simpa using hm), ih hrest]

theorem san4Tail_fix (s : InterfaceIpv4) (hs : sanitized4 s = true) :
    san4Tail s = s := by
  obtain ⟨en, pl, dh, cid, ad, adns, agw, art, atid, aea, arm, dsh, dch, dn⟩ := s
  simp only [sanitized4, InterfaceIpv4.is_auto, addrClean4, List.all_eq_true,
    Bool.and_eq_true, Bool.or_eq_true, Bool.not_eq_true] at hs
  obtain ⟨hs4, hclean⟩ := hs
  have hmap : ∀ l, ad = some l → List.map clearMptcp l = l := by
    intro l hl
    apply map_clearMptcp_of_clean
    simp only [List.all_eq_true, addrClean4, Bool.and_eq_true,
      Bool.not_eq_true]
    intro a ha
    exact hclean a (by rw [hl]; exact ha)
  by_cases he : en = true
  · by_cases hd : dh = some true
    · by_cases hsh : dsh = some false <;>
        simp_all [san4Tail] <;>
        (cases hads : ad with
         | none => rfl
         | some l => simp_all [hmap l hads])
    · simp_all [san4Tail]
      cases hads : ad with
      | none => rfl
      | some l => simp_all [hmap l hads]
  · simp_all [san4Tail]
    aesop

theorem sanitize4_fix (s : InterfaceIpv4) (d : Bool)
    (hs : sanitized4 s = true)
    (hck : addrChecks4 (s.addresses.getD []) d = true)
    (hg : ¬(s.enabled = true ∧ s.is_auto = false ∧ s.addresses = some [])) :
    InterfaceIpv4.sanitize s d = .ok s := by
  have hs' := hs
  simp only [sanitized4, Bool.and_eq_true] at hs'
  have hclean : ((s.addresses.getD []).all addrClean4) = true := hs'.2
  have hmatch : ∀ ad : Option (List InterfaceIpAddr), s.addresses = ad →
      (match ad with
        | some addrs =>
          if d && addrs.any (fun a => a.ip.is_ipv6) then
            (.error ⟨.InvalidArgument⟩ : Except NmstateError InterfaceIpv4)
          else if d && addrs.any (fun a => 32 < a.prefixLength) then
            .error ⟨.InvalidArgument⟩
          else
            .ok (san4Tail { s with addresses := some (processAddrs addrs) })
        | none => .ok (san4Tail s)) = .ok s := by
    intro ad had
    cases ad with
    | none => rw [san4Tail_fix s hs]
    | some l =>
      show (if d && l.any (fun a => a.ip.is_ipv6) then
          (.error ⟨.InvalidArgument⟩ : Except NmstateError InterfaceIpv4)
        else if d && l.any (fun a => 32 < a.prefixLength) then
          .error ⟨.InvalidArgument⟩
        else
          .ok (san4Tail { s with addresses := some (processAddrs l) }))
        = .ok s
      have hcl : l.all addrClean4 = true := by
        rw [had] at hclean
        exact hclean
      have hno : (d && l.any fun a => a.ip.is_ipv6) = false
          ∧ (d && l.any fun a => 32 < a.prefixLength) = false := by
        cases d with
        | false => simp
        | true =>
          rw [had] at hck
          simp only [addrChecks4, Bool.not_true, Bool.false_or,
            Bool.and_eq_true, Option.getD_some, Bool.not_eq_true'] at hck
          simp [hck.1, hck.2]
      rw [hno.1, hno.2]
      simp only [Bool.false_eq_true, if_false]
      rw [processAddrs_of_clean l hcl, ← had]
      show Except.ok (san4Tail s) = Except.ok s
      rw [san4Tail_fix s hs]
  unfold InterfaceIpv4.sanitize
  by_cases ha : s.is_auto = true
  · have c1 := hs'.1.1.1.1
    simp only [ha, Bool.not_true, Bool.false_or, Bool.and_eq_true] at c1
    rw [ha, if_pos rfl]
    rw [defTrue_of_isSome _ c1.1.1, defTrue_of_isSome _ c1.1.2,
      defTrue_of_isSome _ c1.2]
    exact hmatch s.addresses rfl
  · have ha' : s.is_auto = false := by
      cases hx : s.is_auto
      · rfl
      · exact absurd hx ha
    rw [ha']
    simp only [Bool.false_eq_true, if_false]
    have hcoll : (s.addresses == some [] && s.enabled) = false := by
      cases he : s.enabled
      · simp
      · cases hbeq : s.addresses == some []
        · simp
        · exact absurd ⟨he, ha', by simpa using hbeq⟩ hg
    rw [hcoll]
    simp only [Bool.false_eq_true, if_false]
    exact hmatch s.addresses rfl

theorem sanitize4_idem (s0 : InterfaceIpv4) (d : Bool) (s' : InterfaceIpv4)
    (h : InterfaceIpv4.sanitize s0 d = .ok s')
    (hg : ¬(s'.enabled = true ∧ s'.is_auto = false
      ∧ s'.addresses = some [])) :
    InterfaceIpv4.sanitize s' d = .ok s' :=
  sanitize4_fix s' d (sanitize4_establishes s0 d s' h)
    (sanitize4_establishes_checks s0 d s' h) hg

theorem keep_clearMptcp (a : InterfaceIpAddr) :
    keepV6NonLinkLocal (clearMptcp a) = keepV6NonLinkLocal a := rfl

theorem clearMptcp_is_auto (a : InterfaceIpAddr) :
    (clearMptcp a).is_auto = a.is_auto := rfl

theorem clearMptcp_valid (a : InterfaceIpAddr) :
    (clearMptcp a).valid_life_time = a.valid_life_time := rfl

theorem clearMptcp_pref (a : InterfaceIpAddr) :
    (clearMptcp a).preferred_life_time = a.preferred_life_time := rfl

theorem clearMptcp_mptcp (a : InterfaceIpAddr) :
    (clearMptcp a).mptcp_flags = none := rfl

theorem addrs_clean6_after (l : List InterfaceIpAddr)
    (h5 : l.all (fun a => !a.is_auto && a.valid_life_time.isNone
      && a.preferred_life_time.isNone) = true) :
    ((l.filter keepV6NonLinkLocal).map clearMptcp).all addrClean6 = true := by
  rw [List.all_eq_true]
  intro x hx
  rw [List.mem_map] at hx
  obtain ⟨b, hbf, rfl⟩ := hx
  rw [List.mem_filter] at hbf
  obtain ⟨hb, hkeep⟩ := hbf
  have hb5 := List.all_eq_true.mp h5 b hb
  simp only [Bool.and_eq_true, Bool.not_eq_true',
    Option.isNone_iff_eq_none] at hb5
  obtain ⟨⟨hau, hv⟩, hp⟩ := hb5
  simp [addrClean6, keep_clearMptcp, hkeep, clearMptcp_is_auto,
    clearMptcp_valid, clearMptcp_pref, clearMptcp_mptcp,
    InterfaceIpAddr.is_auto, hv, hp]

theorem san6Rest_token_none_establishes (s1 : InterfaceIpv6) (d : Bool)
    (s' : InterfaceIpv6) (htok : s1.token = none)
    (h5 : (s1.addresses.getD []).all (fun a => !a.is_auto
      && a.valid_life_time.isNone && a.preferred_life_time.isNone) = true)
    (h : san6Rest s1 d = .ok s') :
    sanitized6 s' = true ∧ s'.token = none
    ∧ s'.addresses = (if s1.enabled then
        Option.map (List.map clearMptcp ∘ List.filter keepV6NonLinkLocal)
          s1.addresses
      else none) := by
  cases he : s1.enabled with
  | false =>
    simp [san6Rest, san6Token, san6Mid, InterfaceIpv6.is_auto, he, htok] at h
    subst h
    refine ⟨?_, by simp, by simp [he]⟩
    simp [sanitized6, InterfaceIpv6.is_auto, he]
  | true =>
    cases hor : (s1.dhcp == some true || s1.autoconf == some true) with
    | false =>
      simp [san6Rest, san6Token, san6Mid, InterfaceIpv6.is_auto, he, hor,
        htok] at h
      subst h
      refine ⟨?_, by simp, by simp [he]⟩
      simp [sanitized6, InterfaceIpv6.is_auto, he, hor]
      cases hads : s1.addresses with
      | none => simp
      | some l =>
        rw [hads] at h5
        intro x hx
        exact List.all_eq_true.mp (addrs_clean6_after l h5) x hx
    | true =>
      cases hsh : s1.dhcp_send_hostname == some false with
      | false =>
        simp [san6Rest, san6Token, san6Mid, InterfaceIpv6.is_auto, he, hor,
          hsh, htok] at h
        subst h
        refine ⟨?_, by simp, by simp [he]⟩
        simp [sanitized6, InterfaceIpv6.is_auto, he, hor, hsh, defTrue_isSome]
        cases hads : s1.addresses with
        | none => simp
        | some l =>
          rw [hads] at h5
          intro x hx
          exact List.all_eq_true.mp (addrs_clean6_after l h5) x hx
      | true =>
        simp [san6Rest, san6Token, san6Mid, InterfaceIpv6.is_auto, he, hor,
          hsh, htok] at h
        subst h
        refine ⟨?_, by simp, by simp [he]⟩
        simp [sanitized6, InterfaceIpv6.is_auto, he, hor, hsh, defTrue_isSome]
        cases hads : s1.addresses with
        | none => simp
        | some l =>
          rw [hads] at h5
          intro x hx
          exact List.all_eq_true.mp (addrs_clean6_after l h5) x hx

theorem processAddrs_preclean128 (l : List InterfaceIpAddr)
    (h : (l.any fun a => 128 < a.prefixLength) = false) :
    ((processAddrs l).any fun a => 128 < a.prefixLength) = false := by
  simp only [processAddrs, List.any_map, Function.comp_def, clearLifetimes,
    List.any_eq_false] at *
  exact fun a ha => h a (List.mem_of_mem_filter ha)

theorem filter_map_any128 (l : List InterfaceIpAddr)
    (h : (l.any fun a => 128 < a.prefixLength) = false) :
    (((l.filter keepV6NonLinkLocal).map clearMptcp).any
      fun a => 128 < a.prefixLength) = false := by
  simp only [List.any_map, Function.comp_def, clearMptcp,
    List.any_eq_false] at *
  exact fun a ha => h a (List.mem_of_mem_filter ha)

theorem sanitize6_establishes (s0 : InterfaceIpv6) (d : Bool)
    (s' : InterfaceIpv6) (htok : s0.token = none)
    (h : InterfaceIpv6.sanitize s0 d = .ok s') :
    sanitized6 s' = true ∧ s'.token = none := by
  unfold InterfaceIpv6.sanitize at h
  cases hads : s0.addresses with
  | none =>
    simp only [hads] at h
    obtain ⟨h1, h2, _⟩ := san6Rest_token_none_establishes s0 d s' htok
      (by rw [hads]; rfl) h
    exact ⟨h1, h2⟩
  | some l =>
    simp only [hads] at h
    split at h
    · cases h
    · split at h
      · cases h
      · obtain ⟨h1, h2, _⟩ := san6Rest_token_none_establishes _ d s'
          (by exact htok) (by simpa using processAddrs_preclean l) h
        exact ⟨h1, h2⟩

theorem sanitize6_establishes_checks (s0 : InterfaceIpv6) (d : Bool)
    (s' : InterfaceIpv6) (htok : s0.token = none)
    (h : InterfaceIpv6.sanitize s0 d = .ok s') :
    addrChecks6 (s'.addresses.getD []) d = true := by
  cases d with
  | false => simp [addrChecks6]
  | true =>
    unfold InterfaceIpv6.sanitize at h
    cases hads : s0.addresses with
    | none =>
      simp only [hads] at h
      obtain ⟨_, _, ha⟩ := san6Rest_token_none_establishes s0 true s' htok
        (by rw [hads]; rfl) h
      rw [addrChecks6, ha]
      split <;> simp [hads]
    | some l =>
      simp only [hads] at h
      split at h
      · cases h
      · split at h
        · cases h
        · rename_i h128
          simp only [Bool.true_and, Bool.not_eq_true] at h128
          obtain ⟨_, _, ha⟩ := san6Rest_token_none_establishes _ true s'
            (by exact htok) (by simpa using processAddrs_preclean l) h
          rw [addrChecks6, ha]
          split
          · simp only [Option.map_some, Option.getD_some, Function.comp_def]
            simp [filter_map_any128 _ (processAddrs_preclean128 l h128)]
          · simp

theorem filter_keep_of_clean (l : List InterfaceIpAddr)
    (h : l.all addrClean6 = true) : l.filter keepV6NonLinkLocal = l := by
  rw [List.filter_eq_self]
  intro a ha
  have := List.all_eq_true.mp h a ha
  simp only [addrClean6, Bool.and_eq_true] at this
  exact this.2

theorem clean6_core (l : List InterfaceIpAddr)
    (h : l.all addrClean6 = true) : l.all addrClean4 = true := by
  rw [List.all_eq_true] at *
  intro a ha
  have := h a ha
  simp only [addrClean6, addrClean4, Bool.and_eq_true] at *
  exact this.1

theorem clean6_no_v4 (l : List InterfaceIpAddr)
    (h : l.all addrClean6 = true) : (l.any fun a => a.ip.is_ipv4) = false := by
  simp only [List.any_eq_false]
  intro a ha
  have := List.all_eq_true.mp h a ha
  simp only [addrClean6, Bool.and_eq_true] at this
  have hk := this.2
  cases hip : a.ip with
  | v4 x => simp [keepV6NonLinkLocal, hip] at hk
  | v6 x => simp [IpAddr.is_ipv4, hip]

theorem san6Mid_fix (s : InterfaceIpv6) (hs : sanitized6 s = true) :
    san6Mid s = s := by
  obtain ⟨en, pl, dh, duid, ac, agm, ad, adns, agw, art, atid, aea, arm,
    tok, dsh, dch, dn⟩ := s
  simp only [sanitized6, InterfaceIpv6.is_auto, addrClean6, List.all_eq_true,
    Bool.and_eq_true, Bool.or_eq_true, Bool.not_eq_true] at hs
  obtain ⟨hs4, hclean⟩ := hs
  have hfix : ∀ l, ad = some l →
      (List.map clearMptcp (List.filter keepV6NonLinkLocal l)) = l := by
    intro l hl
    have hcl : l.all addrClean6 = true := by
      rw [List.all_eq_true]
      intro a ha
      have := hclean a (by rw [hl]; exact ha)
      simp only [addrClean6, Bool.and_eq_true, Bool.not_eq_true]
      simp_all [InterfaceIpAddr.is_auto]
    rw [filter_keep_of_clean l hcl,
      map_clearMptcp_of_clean l (clean6_core l hcl)]
  by_cases he : en = true
  · by_cases hor : (dh == some true || ac == some true) = true
    · have hor' : dh = some true ∨ ac = some true := by simpa using hor
      rcases hor' with hdh | hac2 <;>
        simp_all [san6Mid, InterfaceIpv6.is_auto, defTrue_of_isSome] <;>
        all_goals (cases hads : ad with
         | none => simp_all [defTrue_of_isSome]
         | some l => simp_all [hfix l hads, defTrue_of_isSome])
    · simp_all [san6Mid, InterfaceIpv6.is_auto, defTrue_of_isSome]
      all_goals (cases hads : ad with
        | none => simp_all [defTrue_of_isSome]
        | some l => simp_all [hfix l hads, defTrue_of_isSome])
  · simp_all [san6Mid, InterfaceIpv6.is_auto, defTrue_of_isSome]

theorem san6Rest_fix (s : InterfaceIpv6) (d : Bool)
    (hs : sanitized6 s = true) (htok : s.token = none) :
    san6Rest s d = .ok s := by
  have hcust : (s.dhcp_send_hostname == some false) = true →
      s.dhcp_custom_hostname = none := by
    intro hsh
    have hs' := hs
    simp only [sanitized6, Bool.and_eq_true, Bool.or_eq_true,
      Bool.not_eq_true', Option.isNone_iff_eq_none] at hs'
    rcases hs'.1.2 with hcon | hok
    · rw [hsh] at hcon
      cases hcon
    · exact hok
  unfold san6Rest san6Token
  rw [san6Mid_fix s hs, htok]
  cases hsh : s.dhcp_send_hostname == some false with
  | false => simp [hsh]
  | true =>
    simp only [hsh, if_true]
    rw [← hcust hsh]

theorem sanitize6_fix (s : InterfaceIpv6) (d : Bool)
    (hs : sanitized6 s = true) (htok : s.token = none)
    (hck : addrChecks6 (s.addresses.getD []) d = true) :
    InterfaceIpv6.sanitize s d = .ok s := by
  have hclean : ((s.addresses.getD []).all addrClean6) = true := by
    have hs' := hs
    simp only [sanitized6, Bool.and_eq_true] at hs'
    exact hs'.2
  have hmatch : ∀ ad : Option (List InterfaceIpAddr), s.addresses = ad →
      (match ad with
        | some addrs =>
          if d && addrs.any (fun a => a.ip.is_ipv4) then
            (.error ⟨.InvalidArgument⟩ : Except NmstateError InterfaceIpv6)
          else if d && addrs.any (fun a => 128 < a.prefixLength) then
            .error ⟨.InvalidArgument⟩
          else san6Rest { s with addresses := some (processAddrs addrs) } d
        | none => san6Rest s d) = .ok s := by
    intro ad had
    cases ad with
    | none => exact san6Rest_fix s d hs htok
    | some l =>
      show (if d && l.any (fun a => a.ip.is_ipv4) then
          (.error ⟨.InvalidArgument⟩ : Except NmstateError InterfaceIpv6)
        else if d && l.any (fun a => 128 < a.prefixLength) then
          .error ⟨.InvalidArgument⟩
        else san6Rest { s with addresses := some (processAddrs l) } d)
        = .ok s
      have hcl : l.all addrClean6 = true := by
        rw [had] at hclean
        exact hclean
      have hno1 : (d && l.any fun a => a.ip.is_ipv4) = false := by
        rw [clean6_no_v4 l hcl]
        simp
      have hno2 : (d && l.any fun a => 128 < a.prefixLength) = false := by
        cases d with
        | false => simp
        | true =>
          rw [had] at hck
          simp only [addrChecks6, Bool.not_true, Bool.false_or,
            Option.getD_some, Bool.not_eq_true'] at hck
          simp [hck]
      rw [hno1, hno2]
      simp only [Bool.false_eq_true, if_false]
      rw [processAddrs_of_clean l (clean6_core l hcl), ← had]
      show san6Rest s d = .ok s
      exact san6Rest_fix s d hs htok
  unfold InterfaceIpv6.sanitize
  exact hmatch s.addresses rfl

theorem sanitize6_idem (s0 : InterfaceIpv6) (d : Bool) (s' : InterfaceIpv6)
    (htok : s0.token = none) (h : InterfaceIpv6.sanitize s0 d = .ok s') :
    InterfaceIpv6.sanitize s' d = .ok s' := by
  obtain ⟨h1, h2⟩ := sanitize6_establishes s0 d s' htok h
  exact sanitize6_fix s' d h1 h2 (sanitize6_establishes_checks s0 d s' htok h)

/-- C3 (amended): sanitize is idempotent on its success outputs except in
two cases the source admits: an IPv4 output that is enabled, non-auto and
carries an empty address list collapses on the second run, and an IPv6
token can canonicalize to a form that does not re-parse. For IPv4 the
re-run reproduces the output whenever the output is not an
enabled/non-auto/empty-list stack; for IPv6 it does whenever the stack
carries no token. -/
theorem sanitize_idempotent_guarded :
    (∀ (s0 : InterfaceIpv4) (d : Bool) (s' : InterfaceIpv4),
        InterfaceIpv4.sanitize s0 d = .ok s' →
        ¬(s'.enabled = true ∧ s'.is_auto = false ∧ s'.addresses = some []) →
        InterfaceIpv4.sanitize s' d = .ok s')
    ∧ (∀ (s0 : InterfaceIpv6) (d : Bool) (s' : InterfaceIpv6),
        s0.token = none →
        InterfaceIpv6.sanitize s0 d = .ok s' →
        InterfaceIpv6.sanitize s' d = .ok s') :=
  ⟨sanitize4_idem, sanitize6_idem⟩

/-- C3 witness: both guarded idempotence conjuncts applied to the default
stacks. -/
theorem sanitize_idempotent_guarded_witness :
    InterfaceIpv4.sanitize InterfaceIpv4.default false
      = .ok InterfaceIpv4.default
    ∧ InterfaceIpv6.sanitize InterfaceIpv6.default false
      = .ok InterfaceIpv6.default :=
  ⟨sanitize_idempotent_guarded.1 InterfaceIpv4.default false
      InterfaceIpv4.default (by decide) (by decide),
   sanitize_idempotent_guarded.2 InterfaceIpv6.default false
      InterfaceIpv6.default (by decide) (by decide)⟩

/-- C3 counterexample: an enabled IPv4 stack whose single address is
dynamic sanitizes to an enabled stack with an empty address list, which a
second sanitize collapses to a disabled one; an autoconf IPv6 stack with
token `::5:0:0:0` sanitizes to token `:0:0:5::`, on which a second sanitize
fails with InvalidArgument. -/
theorem sanitize_idempotent_counterexample :
    InterfaceIpv4.sanitize c3V4AllAuto false = .ok c3V4Mid
    ∧ InterfaceIpv4.sanitize c3V4Mid false ≠ .ok c3V4Mid
    ∧ InterfaceIpv6.sanitize c3V6Tok true = .ok c3V6TokMid
    ∧ InterfaceIpv6.sanitize c3V6TokMid true = .error ⟨.InvalidArgument⟩ :=
  ⟨by decide, by decide, by decide, by decide⟩
